import Mathlib

/-!
Shallow embedding of `sts/replay_event.py`: the event taxonomy, the label
registry in `Event.__init__`, the JSON codec (`to_json` / per-class
`from_json`), and each event's `proceed` step against a simulation state.
JSON values are modelled post-parse (Python tuples serialize to JSON arrays
and parse back as lists).
-/

/-- A parsed JSON value (what `json.loads` yields: dicts, lists, strings,
numbers, booleans, null). Numbers are modelled as integers, which covers
every field the event log uses. -/
inductive JsonVal where
  | jnum (n : Int)
  | jstr (s : String)
  | jbool (b : Bool)
  | jnull
  | jarr (xs : List JsonVal)
  | jobj (fields : List (String × JsonVal))
deriving Repr

mutual

/-- Structural equality on parsed JSON values (Python `==` on parsed data). -/
def JsonVal.beq : JsonVal → JsonVal → Bool
  | .jnum a, .jnum b => a == b
  | .jstr a, .jstr b => a == b
  | .jbool a, .jbool b => a == b
  | .jnull, .jnull => true
  | .jarr xs, .jarr ys => JsonVal.beqList xs ys
  | .jobj xs, .jobj ys => JsonVal.beqObj xs ys
  | _, _ => false

/-- Elementwise equality of parsed JSON arrays. -/
def JsonVal.beqList : List JsonVal → List JsonVal → Bool
  | [], [] => true
  | x :: xs, y :: ys => JsonVal.beq x y && JsonVal.beqList xs ys
  | _, _ => false

/-- Entrywise equality of parsed JSON objects. -/
def JsonVal.beqObj : List (String × JsonVal) → List (String × JsonVal) → Bool
  | [], [] => true
  | (k, v) :: xs, (k2, v2) :: ys =>
      k == k2 && JsonVal.beq v v2 && JsonVal.beqObj xs ys
  | _, _ => false

end

mutual

theorem JsonVal.beq_iff : ∀ a b, (JsonVal.beq a b = true) ↔ a = b
  | .jnum _, .jnum _ => by simp [JsonVal.beq]
  | .jnum _, .jstr _ => by simp [JsonVal.beq]
  | .jnum _, .jbool _ => by simp [JsonVal.beq]
  | .jnum _, .jnull => by simp [JsonVal.beq]
  | .jnum _, .jarr _ => by simp [JsonVal.beq]
  | .jnum _, .jobj _ => by simp [JsonVal.beq]
  | .jstr _, .jnum _ => by simp [JsonVal.beq]
  | .jstr _, .jstr _ => by simp [JsonVal.beq]
  | .jstr _, .jbool _ => by simp [JsonVal.beq]
  | .jstr _, .jnull => by simp [JsonVal.beq]
  | .jstr _, .jarr _ => by simp [JsonVal.beq]
  | .jstr _, .jobj _ => by simp [JsonVal.beq]
  | .jbool _, .jnum _ => by simp [JsonVal.beq]
  | .jbool _, .jstr _ => by simp [JsonVal.beq]
  | .jbool _, .jbool _ => by simp [JsonVal.beq]
  | .jbool _, .jnull => by simp [JsonVal.beq]
  | .jbool _, .jarr _ => by simp [JsonVal.beq]
  | .jbool _, .jobj _ => by simp [JsonVal.beq]
  | .jnull, .jnum _ => by simp [JsonVal.beq]
  | .jnull, .jstr _ => by simp [JsonVal.beq]
  | .jnull, .jbool _ => by simp [JsonVal.beq]
  | .jnull, .jnull => by simp [JsonVal.beq]
  | .jnull, .jarr _ => by simp [JsonVal.beq]
  | .jnull, .jobj _ => by simp [JsonVal.beq]
  | .jarr _, .jnum _ => by simp [JsonVal.beq]
  | .jarr _, .jstr _ => by simp [JsonVal.beq]
  | .jarr _, .jbool _ => by simp [JsonVal.beq]
  | .jarr _, .jnull => by simp [JsonVal.beq]
  | .jarr xs, .jarr ys => by
      simpa [JsonVal.beq] using JsonVal.beqList_iff xs ys
  | .jarr _, .jobj _ => by simp [JsonVal.beq]
  | .jobj _, .jnum _ => by simp [JsonVal.beq]
  | .jobj _, .jstr _ => by simp [JsonVal.beq]
  | .jobj _, .jbool _ => by simp [JsonVal.beq]
  | .jobj _, .jnull => by simp [JsonVal.beq]
  | .jobj _, .jarr _ => by simp [JsonVal.beq]
  | .jobj xs, .jobj ys => by
      simpa [JsonVal.beq] using JsonVal.beqObj_iff xs ys

theorem JsonVal.beqList_iff :
    ∀ xs ys, (JsonVal.beqList xs ys = true) ↔ xs = ys
  | [], [] => by simp [JsonVal.beqList]
  | [], _ :: _ => by simp [JsonVal.beqList]
  | _ :: _, [] => by simp [JsonVal.beqList]
  | x :: xs, y :: ys => by
      simp [JsonVal.beqList, JsonVal.beq_iff x y, JsonVal.beqList_iff xs ys]

theorem JsonVal.beqObj_iff :
    ∀ xs ys, (JsonVal.beqObj xs ys = true) ↔ xs = ys
  | [], [] => by simp [JsonVal.beqObj]
  | [], _ :: _ => by simp [JsonVal.beqObj]
  | _ :: _, [] => by simp [JsonVal.beqObj]
  | (k, v) :: xs, (k2, v2) :: ys => by
      simp [JsonVal.beqObj, JsonVal.beq_iff v v2, JsonVal.beqObj_iff xs ys,
        Prod.ext_iff]

end

instance : DecidableEq JsonVal := fun a b =>
  decidable_of_iff _ (JsonVal.beq_iff a b)

instance : BEq JsonVal := ⟨JsonVal.beq⟩

instance {ε α : Type} [DecidableEq ε] [DecidableEq α] :
    DecidableEq (Except ε α) := fun a b =>
  match a, b with
  | .ok x, .ok y =>
      if h : x = y then .isTrue (congrArg _ h)
      else .isFalse (fun hh => h (Except.ok.inj hh))
  | .error x, .error y =>
      if h : x = y then .isTrue (congrArg _ h)
      else .isFalse (fun hh => h (Except.error.inj hh))
  | .ok _, .error _ => .isFalse (fun hh => Except.noConfusion hh)
  | .error _, .ok _ => .isFalse (fun hh => Except.noConfusion hh)

/-- A decoded JSON record (`json_hash` in the source): key/value pairs. -/
abbrev Record := List (String × JsonVal)

/-- Python dict lookup on a record, by key. -/
def lookupField (rec : Record) (f : String) : Option JsonVal :=
  (rec.find? (fun kv => kv.1 == f)).map (fun kv => kv.2)

/-- The `SyncTime`: a (seconds, microseconds) pair. The components are kept as
raw JSON values because `from_json` builds `SyncTime(time[0], time[1])`
without converting them (`replay_event.py:134`). -/
structure SyncT where
  sec : JsonVal
  usec : JsonVal
deriving DecidableEq, Repr

/-- Python exceptions that the decode / construction paths can raise. -/
inductive PyErr where
  /-- `ValueError("Field %s not in json_hash %s")` from `assert_fields_exist`. -/
  | fieldMissing (field : String)
  /-- `KeyError` from indexing a dict with an absent key. -/
  | keyError (field : String)
  /-- `IndexError` from indexing a too-short sequence. -/
  | indexError
  /-- `TypeError` / `ValueError` from a conversion such as `int(...)` or
  from slicing/parsing a label with a non-numeric suffix. -/
  | badValue (msg : String)
deriving DecidableEq, Repr

/-- Does the raised error carry (name) the given field? Both the
`ValueError` raised by `assert_fields_exist` and a dict `KeyError`
mention the field by name. -/
def PyErr.namesField : PyErr → String → Bool
  | .fieldMissing f, g => f == g
  | .keyError f, g => f == g
  | _, _ => false

/-- External `sts.fingerprints.DPFingerprint`: wraps the structured dict it
was built from; `to_dict` returns that dict (modelled by `val`). -/
structure DPFingerprint where
  val : JsonVal
deriving DecidableEq, Repr

/-- External `sts.fingerprints.OFFingerprint`, same boundary model. -/
structure OFFingerprint where
  val : JsonVal
deriving DecidableEq, Repr

/-- A Python function object as carried by `CheckInvariants.invariant_check`:
its `__name__` and its marshalled `func_code` bytes. The function's runtime
behaviour is supplied separately (see `Event.proceed`), mirroring
`types.FunctionType(code, globals())`. -/
structure PyCode where
  name : String
  blob : List Nat
deriving DecidableEq, Repr

/-- Model of the external `InvariantChecker.check_correspondence` default. -/
def check_correspondence : PyCode := ⟨"check_correspondence", []⟩

/-- Attributes set by `Event.__init__`: `label`, `time`, `dependent_labels`. -/
structure EventBase where
  label : String
  time : SyncT
  dependent_labels : List String
deriving DecidableEq, Repr

/-- The fingerprint attribute of a `ControllerStateChange`: the constructor
tuples it with an `OFFingerprint` only when the argument was a list,
otherwise it is stored raw (`replay_event.py:586-588`). -/
inductive CSCFingerprint where
  | raw (v : JsonVal)
  | tup (tag : JsonVal) (fp : OFFingerprint)
deriving DecidableEq, Repr

/-- The concrete event classes of `replay_event.py`, with the attributes
their constructors store. `dpid`/`controller_id` are converted with
`int(...)`/tupling exactly where the source does, and left raw elsewhere. -/
inductive Event where
  | switchFailure (base : EventBase) (dpid : Int)
  | switchRecovery (base : EventBase) (dpid : Int)
  | linkFailure (base : EventBase)
      (start_dpid start_port_no end_dpid end_port_no : Int)
  | linkRecovery (base : EventBase)
      (start_dpid start_port_no end_dpid end_port_no : Int)
  | controllerFailure (base : EventBase) (controller_id : JsonVal × Int)
  | controllerRecovery (base : EventBase) (controller_id : JsonVal × Int)
  | hostMigration (base : EventBase)
      (old_ingress_dpid old_ingress_port_no
       new_ingress_dpid new_ingress_port_no : Int)
  | policyChange (base : EventBase) (request_type : JsonVal)
  | trafficInjection (base : EventBase)
  | waitTime (base : EventBase) (wait_time : JsonVal)
  | checkInvariants (base : EventBase) (fail_on_error : JsonVal)
      (invariant_check : PyCode)
  | controlChannelBlock (base : EventBase) (dpid : JsonVal)
      (controller_id : List JsonVal)
  | controlChannelUnblock (base : EventBase) (dpid : JsonVal)
      (controller_id : List JsonVal)
  | dataplaneDrop (base : EventBase) (fingerprint : JsonVal × DPFingerprint)
  | dataplanePermit (base : EventBase) (fingerprint : JsonVal × DPFingerprint)
  | controlMessageReceive (base : EventBase) (dpid : JsonVal)
      (controller_id : List JsonVal) (fingerprint : JsonVal × OFFingerprint)
  | controllerStateChange (base : EventBase) (controller_id : List JsonVal)
      (fingerprint : CSCFingerprint) (name : JsonVal) (value : JsonVal)
  | deterministicValue (base : EventBase)
  | invariantViolation (base : EventBase) (violations : List String)
deriving DecidableEq, Repr

/-- The `self.__class__.__name__` for each concrete event. Note that no
instance ever has the abstract class `Event` itself (it has an abstract
method and cannot be instantiated). -/
def className : Event → String
  | .switchFailure .. => "SwitchFailure"
  | .switchRecovery .. => "SwitchRecovery"
  | .linkFailure .. => "LinkFailure"
  | .linkRecovery .. => "LinkRecovery"
  | .controllerFailure .. => "ControllerFailure"
  | .controllerRecovery .. => "ControllerRecovery"
  | .hostMigration .. => "HostMigration"
  | .policyChange .. => "PolicyChange"
  | .trafficInjection .. => "TrafficInjection"
  | .waitTime .. => "WaitTime"
  | .checkInvariants .. => "CheckInvariants"
  | .controlChannelBlock .. => "ControlChannelBlock"
  | .controlChannelUnblock .. => "ControlChannelUnblock"
  | .dataplaneDrop .. => "DataplaneDrop"
  | .dataplanePermit .. => "DataplanePermit"
  | .controlMessageReceive .. => "ControlMessageReceive"
  | .controllerStateChange .. => "ControllerStateChange"
  | .deterministicValue .. => "DeterministicValue"
  | .invariantViolation .. => "InvariantViolation"

/-- The `EventBase` attributes of any event. -/
def Event.base : Event → EventBase
  | .switchFailure b _ => b
  | .switchRecovery b _ => b
  | .linkFailure b _ _ _ _ => b
  | .linkRecovery b _ _ _ _ => b
  | .controllerFailure b _ => b
  | .controllerRecovery b _ => b
  | .hostMigration b _ _ _ _ => b
  | .policyChange b _ => b
  | .trafficInjection b => b
  | .waitTime b _ => b
  | .checkInvariants b _ _ => b
  | .controlChannelBlock b _ _ => b
  | .controlChannelUnblock b _ _ => b
  | .dataplaneDrop b _ => b
  | .dataplanePermit b _ => b
  | .controlMessageReceive b _ _ _ => b
  | .controllerStateChange b _ _ _ _ => b
  | .deterministicValue b => b
  | .invariantViolation b _ => b

/-- The `Event.__eq__` (`replay_event.py:75-79`): `if type(other) != Event:
return False; return self.label == other.label`. The guard compares the
dynamic class of `other` with the abstract class `Event` itself. -/
def Event_eq (self other : Event) : Bool :=
  if className other ≠ "Event" then false
  else self.base.label == other.base.label

/-- The `Event.__hash__` (`replay_event.py:71-73`): the hash of the label,
for any string-hash function `h`. -/
def Event_hash (h : String → Int) (e : Event) : Int :=
  h e.base.label

/-- Process-wide label registry state: `Event._label_gen` (an
`itertools.count(1)`, so `counter` is the value the next call of `next()`
yields) and `Event._all_label_ids` (the claimed numeric suffixes). -/
structure LabelState where
  counter : Nat
  claimed : Finset Nat
deriving DecidableEq

/-- Registry state at process start: the counter yields 1 first and no
suffix is claimed. -/
def initialLabelState : LabelState := ⟨1, ∅⟩

/-- The `while label_id in Event._all_label_ids` loop of `Event.__init__`
(`replay_event.py:42-44`): keep drawing successive counter values until one
is not claimed. At most `claimed.card` draws can hit the set, so the fuel
`claimed.card + 1` used below never runs out. Returns the chosen id; the
counter afterwards stands at the chosen id + 1. -/
def genLoop : Nat → Nat → Finset Nat → Nat
  | 0, id, _ => id
  | fuel + 1, id, claimed =>
      if id ∈ claimed then genLoop fuel (id + 1) claimed else id

/-- The value of a decimal digit character, if it is one. -/
def charDigit? (c : Char) : Option Nat :=
  if 48 ≤ c.toNat ∧ c.toNat ≤ 57 then some (c.toNat - 48) else none

/-- Parse a non-empty all-digit character list as a natural number
(`int(...)` on the decimal suffixes this module handles). -/
def parseDigitsAux : List Char → Nat → Option Nat
  | [], acc => some acc
  | c :: cs, acc =>
      match charDigit? c with
      | some d => parseDigitsAux cs (acc * 10 + d)
      | none => none

/-- The `int(s)` on a digit string, `none` where Python's `int` raises. -/
def parseDigits : List Char → Option Nat
  | [] => none
  | cs => parseDigitsAux cs 0

/-- The `int(label[1:])`: drop the first character and parse the decimal
suffix. -/
def labelSuffixNat (l : String) : Option Nat :=
  parseDigits (l.data.drop 1)

/-- The label logic of `Event.__init__` (`replay_event.py:38-49`): when no
label is supplied, generate `prefix + str(label_id)` skipping claimed ids;
in both cases record `int(label[1:])` as claimed (a non-numeric suffix makes
`int` raise, modelled as an error). The prefixes in use ("e", "i") are one
character, so `label[1:]` is the decimal suffix. -/
def event_init_label (pre : Char) (label? : Option String) (s : LabelState) :
    Except PyErr (String × LabelState) :=
  let picked : String × Nat :=
    match label? with
    | none =>
        let id := genLoop (s.claimed.card + 1) s.counter s.claimed
        (String.singleton pre ++ toString id, id + 1)
    | some l => (l, s.counter)
  match labelSuffixNat picked.1 with
  | some n => .ok (picked.1, ⟨picked.2, insert n s.claimed⟩)
  | none => .error (.badValue "invalid literal for int()")

/-- Creating a sequence of events in one process, keeping only their labels:
each request is the constructor's label prefix together with an explicit
label (the replay-reconstruction path) or `none` (the live path). -/
def createLabels : List (Char × Option String) → LabelState →
    Except PyErr (List String × LabelState)
  | [], s => .ok ([], s)
  | r :: rs, s => do
      let (l, s1) ← event_init_label r.1 r.2 s
      let (ls, s2) ← createLabels rs s1
      return (l :: ls, s2)

/-- The `assert_fields_exist` (`replay_event.py:124-129`): raise a `ValueError`
naming the first field absent from the hash. -/
def assert_fields_exist (json_hash : Record) : List String → Except PyErr Unit
  | [] => .ok ()
  | f :: fs =>
      if (lookupField json_hash f).isSome then assert_fields_exist json_hash fs
      else .error (.fieldMissing f)

/-- Python dict indexing `json_hash[f]`: `KeyError(f)` when absent. -/
def getField (json_hash : Record) (f : String) : Except PyErr JsonVal :=
  match lookupField json_hash f with
  | some v => .ok v
  | none => .error (.keyError f)

/-- The `extract_label_time` (`replay_event.py:131-135`): assert `label` and
`time` exist, then build `SyncTime(time[0], time[1])`. A non-sequence time
value cannot be indexed (`TypeError`); a short one raises `IndexError`. -/
def extract_label_time (json_hash : Record) : Except PyErr (JsonVal × SyncT) := do
  let _ ← assert_fields_exist json_hash ["label", "time"]
  let label ← getField json_hash "label"
  let tv ← getField json_hash "time"
  match tv with
  | .jarr l =>
      if h : 2 ≤ l.length then
        .ok (label, ⟨l.get ⟨0, by omega⟩, l.get ⟨1, by omega⟩⟩)
      else .error .indexError
  | _ => .error (.badValue "time value cannot be indexed")

/-- Python `int(...)` on a parsed JSON value. -/
def pyInt : JsonVal → Except PyErr Int
  | .jnum n => .ok n
  | .jbool b => .ok (if b then 1 else 0)
  | .jstr s =>
      match s.toInt? with
      | some n => .ok n
      | none => .error (.badValue "invalid literal for int()")
  | _ => .error (.badValue "int() argument must be a string or a number")

/-- Python `tuple(...)` on a parsed JSON value (lists and strings are
iterable; a string yields its characters). -/
def pyTuple : JsonVal → Except PyErr (List JsonVal)
  | .jarr l => .ok l
  | .jstr s => .ok (s.toList.map (fun c => .jstr (String.singleton c)))
  | _ => .error (.badValue "argument is not iterable")

/-- The `Event.__init__` call made by every `from_json` (label and time both
explicit, `dependent_labels` never passed, hence `[]`): registers the
label's numeric suffix via `event_init_label`. A non-string label value
would fail the later `label[1:]` / `int` processing, modelled as an error.
The prefix argument is irrelevant on this explicit-label path. -/
def init_base (labelVal : JsonVal) (time : SyncT) (s : LabelState) :
    Except PyErr (EventBase × LabelState) := do
  match labelVal with
  | .jstr l => do
      let (label, s') ← event_init_label 'e' (some l) s
      return (⟨label, time, []⟩, s')
  | _ => .error (.badValue "label value is not a string")

/-- The fingerprint normalization in `DataplaneDrop.__init__` /
`DataplanePermit.__init__` (`replay_event.py:484-488`): a list becomes
`(fp[0], DPFingerprint(fp[1]))`; anything else that is not already a tuple
becomes `(class name, DPFingerprint(fp))`; a tuple is kept. -/
def normDPFingerprint (cls : String) :
    Sum JsonVal (JsonVal × DPFingerprint) →
    Except PyErr (JsonVal × DPFingerprint)
  | .inr t => .ok t
  | .inl (.jarr l) =>
      if h : 2 ≤ l.length then .ok (l.get ⟨0, by omega⟩, ⟨l.get ⟨1, by omega⟩⟩)
      else .error .indexError
  | .inl v => .ok (.jstr cls, ⟨v⟩)

/-- Same normalization with `OFFingerprint` in
`ControlMessageReceive.__init__` (`replay_event.py:548-551`). -/
def normOFFingerprint (cls : String) :
    Sum JsonVal (JsonVal × OFFingerprint) →
    Except PyErr (JsonVal × OFFingerprint)
  | .inr t => .ok t
  | .inl (.jarr l) =>
      if h : 2 ≤ l.length then .ok (l.get ⟨0, by omega⟩, ⟨l.get ⟨1, by omega⟩⟩)
      else .error .indexError
  | .inl v => .ok (.jstr cls, ⟨v⟩)

/-- The fingerprint handling in `ControllerStateChange.__init__`
(`replay_event.py:586-588`): only a list argument is tupled with an
`OFFingerprint`; every other value is stored raw. -/
def normCSCFingerprint :
    Sum JsonVal (JsonVal × OFFingerprint) → Except PyErr CSCFingerprint
  | .inr (t, fp) => .ok (.tup t fp)
  | .inl (.jarr l) =>
      if h : 2 ≤ l.length then .ok (.tup (l.get ⟨0, by omega⟩) ⟨l.get ⟨1, by omega⟩⟩)
      else .error .indexError
  | .inl v => .ok (.raw v)

/-- The `str.encode('base64')` on marshalled bytes, modelled as an injective
ASCII armor (the armor's exact alphabet is external to this module). -/
def b64encode (bs : List Nat) : String :=
  String.intercalate "," (bs.map toString)

/-- The matching decode; fails on strings the armor never produces. -/
def b64decode (s : String) : Option (List Nat) :=
  if s = "" then some [] else (s.splitOn ",").mapM (fun p => p.toNat?)

/-- The `marshal.dumps` of a function's `func_code`, modelled as an injective
encoding of name and body bytes. -/
def marshal_dumps (c : PyCode) : List Nat :=
  c.name.length :: (c.name.toList.map Char.toNat) ++ c.blob

/-- The `marshal.loads` / `types.FunctionType(code, globals())`: recover the
function object; fails on malformed data. -/
def marshal_loads : List Nat → Option PyCode
  | [] => none
  | n :: rest =>
      if n ≤ rest.length then
        some ⟨String.mk ((rest.take n).map Char.ofNat), rest.drop n⟩
      else none

/-- The `SwitchFailure.from_json` (`replay_event.py:147-152`). -/
def SwitchFailure_from_json (json_hash : Record) (s : LabelState) :
    Except PyErr (Event × LabelState) := do
  let (label, time) ← extract_label_time json_hash
  let _ ← assert_fields_exist json_hash ["dpid"]
  let dpid ← pyInt (← getField json_hash "dpid")
  let (base, s') ← init_base label time s
  return (.switchFailure base dpid, s')

/-- The `SwitchRecovery.from_json` (`replay_event.py:172-177`). -/
def SwitchRecovery_from_json (json_hash : Record) (s : LabelState) :
    Except PyErr (Event × LabelState) := do
  let (label, time) ← extract_label_time json_hash
  let _ ← assert_fields_exist json_hash ["dpid"]
  let dpid ← pyInt (← getField json_hash "dpid")
  let (base, s') ← init_base label time s
  return (.switchRecovery base dpid, s')

/-- The `LinkFailure.from_json` (`replay_event.py:204-214`). -/
def LinkFailure_from_json (json_hash : Record) (s : LabelState) :
    Except PyErr (Event × LabelState) := do
  let (label, time) ← extract_label_time json_hash
  let _ ← assert_fields_exist json_hash
      ["start_dpid", "start_port_no", "end_dpid", "end_port_no"]
  let start_dpid ← pyInt (← getField json_hash "start_dpid")
  let start_port_no ← pyInt (← getField json_hash "start_port_no")
  let end_dpid ← pyInt (← getField json_hash "end_dpid")
  let end_port_no ← pyInt (← getField json_hash "end_port_no")
  let (base, s') ← init_base label time s
  return (.linkFailure base start_dpid start_port_no end_dpid end_port_no, s')

/-- The `LinkRecovery.from_json` (`replay_event.py:236-246`). -/
def LinkRecovery_from_json (json_hash : Record) (s : LabelState) :
    Except PyErr (Event × LabelState) := do
  let (label, time) ← extract_label_time json_hash
  let _ ← assert_fields_exist json_hash
      ["start_dpid", "start_port_no", "end_dpid", "end_port_no"]
  let start_dpid ← pyInt (← getField json_hash "start_dpid")
  let start_port_no ← pyInt (← getField json_hash "start_port_no")
  let end_dpid ← pyInt (← getField json_hash "end_dpid")
  let end_port_no ← pyInt (← getField json_hash "end_port_no")
  let (base, s') ← init_base label time s
  return (.linkRecovery base start_dpid start_port_no end_dpid end_port_no, s')

/-- The `controller_id = (controller_id[0], int(controller_id[1]))`
conversion shared by `ControllerFailure.from_json` and
`ControllerRecovery.from_json`. Indexing a non-sequence raises. -/
def convControllerId : JsonVal → Except PyErr (JsonVal × Int)
  | .jarr l =>
      if h : 2 ≤ l.length then do
        let p ← pyInt (l.get ⟨1, by omega⟩)
        return (l.get ⟨0, by omega⟩, p)
      else .error .indexError
  | _ => .error (.badValue "controller_id cannot be indexed")

/-- The `ControllerFailure.from_json` (`replay_event.py:264-270`). Source bug
kept as written: line 267 calls `assert_fields_exist('controller_id')`,
passing the string as the hash and no field names, so nothing is checked
and a record without `controller_id` instead raises `KeyError` at the
following dict access. -/
def ControllerFailure_from_json (json_hash : Record) (s : LabelState) :
    Except PyErr (Event × LabelState) := do
  let (label, time) ← extract_label_time json_hash
  let _ ← assert_fields_exist [] []
  let cid0 ← getField json_hash "controller_id"
  let controller_id ← convControllerId cid0
  let (base, s') ← init_base label time s
  return (.controllerFailure base controller_id, s')

/-- The `ControllerRecovery.from_json` (`replay_event.py:286-292`). Kept as
written in the source: line 292 returns `ControllerFailure(...)`, not a
`ControllerRecovery`. Line 289 has the same no-op assert as above. -/
def ControllerRecovery_from_json (json_hash : Record) (s : LabelState) :
    Except PyErr (Event × LabelState) := do
  let (label, time) ← extract_label_time json_hash
  let _ ← assert_fields_exist [] []
  let cid0 ← getField json_hash "controller_id"
  let controller_id ← convControllerId cid0
  let (base, s') ← init_base label time s
  return (.controllerFailure base controller_id, s')

/-- The `HostMigration.from_json` (`replay_event.py:314-325`). -/
def HostMigration_from_json (json_hash : Record) (s : LabelState) :
    Except PyErr (Event × LabelState) := do
  let (label, time) ← extract_label_time json_hash
  let _ ← assert_fields_exist json_hash
      ["old_ingress_dpid", "old_ingress_port_no",
       "new_ingress_dpid", "new_ingress_port_no"]
  let old_ingress_dpid ← pyInt (← getField json_hash "old_ingress_dpid")
  let old_ingress_port_no ← pyInt (← getField json_hash "old_ingress_port_no")
  let new_ingress_dpid ← pyInt (← getField json_hash "new_ingress_dpid")
  let new_ingress_port_no ← pyInt (← getField json_hash "new_ingress_port_no")
  let (base, s') ← init_base label time s
  return (.hostMigration base old_ingress_dpid old_ingress_port_no
            new_ingress_dpid new_ingress_port_no, s')

/-- The `PolicyChange.from_json` (`replay_event.py:342-347`). -/
def PolicyChange_from_json (json_hash : Record) (s : LabelState) :
    Except PyErr (Event × LabelState) := do
  let (label, time) ← extract_label_time json_hash
  let _ ← assert_fields_exist json_hash ["request_type"]
  let request_type ← getField json_hash "request_type"
  let (base, s') ← init_base label time s
  return (.policyChange base request_type, s')

/-- The `TrafficInjection.from_json` (`replay_event.py:359-362`). -/
def TrafficInjection_from_json (json_hash : Record) (s : LabelState) :
    Except PyErr (Event × LabelState) := do
  let (label, time) ← extract_label_time json_hash
  let (base, s') ← init_base label time s
  return (.trafficInjection base, s')

/-- The `WaitTime.from_json` (`replay_event.py:375-380`); `wait_time` is stored
without conversion. -/
def WaitTime_from_json (json_hash : Record) (s : LabelState) :
    Except PyErr (Event × LabelState) := do
  let (label, time) ← extract_label_time json_hash
  let _ ← assert_fields_exist json_hash ["wait_time"]
  let wait_time ← getField json_hash "wait_time"
  let (base, s') ← init_base label time s
  return (.waitTime base wait_time, s')

/-- The `CheckInvariants.from_json` (`replay_event.py:409-422`):
`fail_on_error` defaults to False and is otherwise taken raw;
`invariant_check` defaults to `InvariantChecker.check_correspondence` and is
otherwise rebuilt from the base64-armored marshal data. -/
def CheckInvariants_from_json (json_hash : Record) (s : LabelState) :
    Except PyErr (Event × LabelState) := do
  let (label, time) ← extract_label_time json_hash
  let fail_on_error : JsonVal :=
    (lookupField json_hash "fail_on_error").getD (.jbool false)
  let invariant_check ←
    match lookupField json_hash "invariant_check" with
    | none => Except.ok check_correspondence
    | some (.jstr armored) =>
        match b64decode armored with
        | none => Except.error (.badValue "invalid base64 data")
        | some bs =>
            match marshal_loads bs with
            | none => Except.error (.badValue "invalid marshal data")
            | some c => Except.ok c
    | some _ => Except.error (.badValue "invariant_check is not a string")
  let (base, s') ← init_base label time s
  return (.checkInvariants base fail_on_error invariant_check, s')

/-- The `ControlChannelBlock.from_json` (`replay_event.py:443-449`):
`dpid` is stored raw, `controller_id` is passed through `tuple(...)`. -/
def ControlChannelBlock_from_json (json_hash : Record) (s : LabelState) :
    Except PyErr (Event × LabelState) := do
  let (label, time) ← extract_label_time json_hash
  let _ ← assert_fields_exist json_hash ["dpid", "controller_id"]
  let dpid ← getField json_hash "dpid"
  let controller_id ← pyTuple (← getField json_hash "controller_id")
  let (base, s') ← init_base label time s
  return (.controlChannelBlock base dpid controller_id, s')

/-- The `ControlChannelUnblock.from_json` (`replay_event.py:470-476`). -/
def ControlChannelUnblock_from_json (json_hash : Record) (s : LabelState) :
    Except PyErr (Event × LabelState) := do
  let (label, time) ← extract_label_time json_hash
  let _ ← assert_fields_exist json_hash ["dpid", "controller_id"]
  let dpid ← getField json_hash "dpid"
  let controller_id ← pyTuple (← getField json_hash "controller_id")
  let (base, s') ← init_base label time s
  return (.controlChannelUnblock base dpid controller_id, s')

/-- The `DataplaneDrop.from_json` (`replay_event.py:497-502`): the raw
`fingerprint` value is normalized inside the constructor, after
`Event.__init__` ran. -/
def DataplaneDrop_from_json (json_hash : Record) (s : LabelState) :
    Except PyErr (Event × LabelState) := do
  let (label, time) ← extract_label_time json_hash
  let _ ← assert_fields_exist json_hash ["fingerprint"]
  let fp ← getField json_hash "fingerprint"
  let (base, s') ← init_base label time s
  let fpT ← normDPFingerprint "DataplaneDrop" (.inl fp)
  return (.dataplaneDrop base fpT, s')

/-- The `DataplanePermit.from_json` (`replay_event.py:520-525`). -/
def DataplanePermit_from_json (json_hash : Record) (s : LabelState) :
    Except PyErr (Event × LabelState) := do
  let (label, time) ← extract_label_time json_hash
  let _ ← assert_fields_exist json_hash ["fingerprint"]
  let fp ← getField json_hash "fingerprint"
  let (base, s') ← init_base label time s
  let fpT ← normDPFingerprint "DataplanePermit" (.inl fp)
  return (.dataplanePermit base fpT, s')

/-- The `ControlMessageReceive.from_json` (`replay_event.py:564-571`). -/
def ControlMessageReceive_from_json (json_hash : Record) (s : LabelState) :
    Except PyErr (Event × LabelState) := do
  let (label, time) ← extract_label_time json_hash
  let _ ← assert_fields_exist json_hash ["dpid", "controller_id", "fingerprint"]
  let dpid ← getField json_hash "dpid"
  let controller_id ← pyTuple (← getField json_hash "controller_id")
  let fp ← getField json_hash "fingerprint"
  let (base, s') ← init_base label time s
  let fpT ← normOFFingerprint "ControlMessageReceive" (.inl fp)
  return (.controlMessageReceive base dpid controller_id fpT, s')

/-- The `ControllerStateChange.from_json` (`replay_event.py:603-612`). -/
def ControllerStateChange_from_json (json_hash : Record) (s : LabelState) :
    Except PyErr (Event × LabelState) := do
  let (label, time) ← extract_label_time json_hash
  let _ ← assert_fields_exist json_hash
      ["controller_id", "fingerprint", "name", "value"]
  let controller_id ← pyTuple (← getField json_hash "controller_id")
  let fp ← getField json_hash "fingerprint"
  let nameV ← getField json_hash "name"
  let value ← getField json_hash "value"
  let (base, s') ← init_base label time s
  let fpT ← normCSCFingerprint (.inl fp)
  return (.controllerStateChange base controller_id fpT nameV value, s')

/-- The event classes that define a `from_json` decoder (all concrete input
events plus the two internal events with decoders; `DeterministicValue` and
`InvariantViolation` define none). -/
inductive EClass where
  | switchFailure | switchRecovery | linkFailure | linkRecovery
  | controllerFailure | controllerRecovery | hostMigration | policyChange
  | trafficInjection | waitTime | checkInvariants
  | controlChannelBlock | controlChannelUnblock
  | dataplaneDrop | dataplanePermit
  | controlMessageReceive | controllerStateChange
deriving DecidableEq, Repr

/-- Dispatch to the class's own `from_json` static method. -/
def fromJson : EClass → Record → LabelState → Except PyErr (Event × LabelState)
  | .switchFailure => SwitchFailure_from_json
  | .switchRecovery => SwitchRecovery_from_json
  | .linkFailure => LinkFailure_from_json
  | .linkRecovery => LinkRecovery_from_json
  | .controllerFailure => ControllerFailure_from_json
  | .controllerRecovery => ControllerRecovery_from_json
  | .hostMigration => HostMigration_from_json
  | .policyChange => PolicyChange_from_json
  | .trafficInjection => TrafficInjection_from_json
  | .waitTime => WaitTime_from_json
  | .checkInvariants => CheckInvariants_from_json
  | .controlChannelBlock => ControlChannelBlock_from_json
  | .controlChannelUnblock => ControlChannelUnblock_from_json
  | .dataplaneDrop => DataplaneDrop_from_json
  | .dataplanePermit => DataplanePermit_from_json
  | .controlMessageReceive => ControlMessageReceive_from_json
  | .controllerStateChange => ControllerStateChange_from_json

/-- The `label` / `time` / `dependent_labels` entries every
`Event.to_json` serializes from `self.__dict__` (`replay_event.py:62-69`).
A `SyncTime` namedtuple dumps as a two-element JSON array. -/
def baseFields (b : EventBase) : Record :=
  [("label", .jstr b.label),
   ("time", .jarr [b.time.sec, b.time.usec]),
   ("dependent_labels", .jarr (b.dependent_labels.map .jstr))]

/-- The `Event.to_json` per concrete class (`replay_event.py:62-69`, and the
`CheckInvariants.to_json` override at 401-407): every instance attribute
plus a `class` tag; a `(tag, Fingerprint)` attribute is expanded to
`(tag, fingerprint.to_dict())`. A `ControllerStateChange` whose raw
fingerprint value cannot be indexed makes the `fields['fingerprint'][1]`
probe raise, hence the `Except`. The result models the hash that
`json.loads(json.dumps(fields))` yields, under which Python tuples become
JSON arrays. -/
def toRecord : Event → Except PyErr Record
  | .switchFailure b d =>
      .ok (baseFields b ++ [("dpid", .jnum d), ("class", .jstr "SwitchFailure")])
  | .switchRecovery b d =>
      .ok (baseFields b ++ [("dpid", .jnum d), ("class", .jstr "SwitchRecovery")])
  | .linkFailure b sd sp ed ep =>
      .ok (baseFields b ++
        [("start_dpid", .jnum sd), ("start_port_no", .jnum sp),
         ("end_dpid", .jnum ed), ("end_port_no", .jnum ep),
         ("class", .jstr "LinkFailure")])
  | .linkRecovery b sd sp ed ep =>
      .ok (baseFields b ++
        [("start_dpid", .jnum sd), ("start_port_no", .jnum sp),
         ("end_dpid", .jnum ed), ("end_port_no", .jnum ep),
         ("class", .jstr "LinkRecovery")])
  | .controllerFailure b c =>
      .ok (baseFields b ++
        [("controller_id", .jarr [c.1, .jnum c.2]),
         ("class", .jstr "ControllerFailure")])
  | .controllerRecovery b c =>
      .ok (baseFields b ++
        [("controller_id", .jarr [c.1, .jnum c.2]),
         ("class", .jstr "ControllerRecovery")])
  | .hostMigration b od op nd np =>
      .ok (baseFields b ++
        [("old_ingress_dpid", .jnum od), ("old_ingress_port_no", .jnum op),
         ("new_ingress_dpid", .jnum nd), ("new_ingress_port_no", .jnum np),
         ("class", .jstr "HostMigration")])
  | .policyChange b rt =>
      .ok (baseFields b ++
        [("request_type", rt), ("class", .jstr "PolicyChange")])
  | .trafficInjection b =>
      .ok (baseFields b ++ [("class", .jstr "TrafficInjection")])
  | .waitTime b wt =>
      .ok (baseFields b ++
        [("wait_time", wt), ("class", .jstr "WaitTime")])
  | .checkInvariants b foe code =>
      .ok (baseFields b ++
        [("fail_on_error", foe),
         ("invariant_check", .jstr (b64encode (marshal_dumps code))),
         ("invariant_name", .jstr code.name),
         ("class", .jstr "CheckInvariants")])
  | .controlChannelBlock b d c =>
      .ok (baseFields b ++
        [("dpid", d), ("controller_id", .jarr c),
         ("class", .jstr "ControlChannelBlock")])
  | .controlChannelUnblock b d c =>
      .ok (baseFields b ++
        [("dpid", d), ("controller_id", .jarr c),
         ("class", .jstr "ControlChannelUnblock")])
  | .dataplaneDrop b fp =>
      .ok (baseFields b ++
        [("fingerprint", .jarr [fp.1, fp.2.val]),
         ("class", .jstr "DataplaneDrop")])
  | .dataplanePermit b fp =>
      .ok (baseFields b ++
        [("fingerprint", .jarr [fp.1, fp.2.val]),
         ("class", .jstr "DataplanePermit")])
  | .controlMessageReceive b d c fp =>
      .ok (baseFields b ++
        [("dpid", d), ("controller_id", .jarr c),
         ("fingerprint", .jarr [fp.1, fp.2.val]),
         ("class", .jstr "ControlMessageReceive")])
  | .controllerStateChange b c fp n v => do
      let fpv : JsonVal ←
        match fp with
        | .tup t o => Except.ok (.jarr [t, o.val])
        | .raw (.jarr l) =>
            if 2 ≤ l.length then Except.ok (.jarr l) else Except.error .indexError
        | .raw (.jstr st) =>
            if 2 ≤ st.length then Except.ok (.jstr st) else Except.error .indexError
        | .raw _ => Except.error (.badValue "fingerprint value cannot be indexed")
      return (baseFields b ++
        [("controller_id", .jarr c), ("fingerprint", fpv),
         ("name", n), ("value", v),
         ("class", .jstr "ControllerStateChange")])
  | .deterministicValue b =>
      .ok (baseFields b ++ [("class", .jstr "DeterministicValue")])
  | .invariantViolation b vs =>
      .ok (baseFields b ++
        [("violations", .jarr (vs.map .jstr)),
         ("class", .jstr "InvariantViolation")])

/-- The `fingerprint` of an event, when it has one: the `@property` for
the input events that define it (class name plus key fields), the stored
attribute for `DataplaneDrop`/`DataplanePermit`/`ControlMessageReceive`/
`ControllerStateChange`. A wrapped fingerprint object is rendered by its
structured dict. -/
def eventFingerprint : Event → Option JsonVal
  | .switchFailure _ d => some (.jarr [.jstr "SwitchFailure", .jnum d])
  | .switchRecovery _ d => some (.jarr [.jstr "SwitchRecovery", .jnum d])
  | .linkFailure _ sd sp ed ep =>
      some (.jarr [.jstr "LinkFailure", .jnum sd, .jnum sp, .jnum ed, .jnum ep])
  | .linkRecovery _ sd sp ed ep =>
      some (.jarr [.jstr "LinkRecovery", .jnum sd, .jnum sp, .jnum ed, .jnum ep])
  | .controllerFailure _ c =>
      some (.jarr [.jstr "ControllerFailure", .jarr [c.1, .jnum c.2]])
  | .controllerRecovery _ c =>
      some (.jarr [.jstr "ControllerRecovery", .jarr [c.1, .jnum c.2]])
  | .hostMigration _ od op nd np =>
      some (.jarr [.jstr "HostMigration", .jnum od, .jnum op, .jnum nd, .jnum np])
  | .policyChange _ _ => none
  | .trafficInjection _ => none
  | .waitTime _ _ => none
  | .checkInvariants _ _ _ => none
  | .controlChannelBlock _ d c =>
      some (.jarr [.jstr "ControlChannelBlock", d, .jarr c])
  | .controlChannelUnblock _ d c =>
      some (.jarr [.jstr "ControlChannelUnblock", d, .jarr c])
  | .dataplaneDrop _ fp => some (.jarr [fp.1, fp.2.val])
  | .dataplanePermit _ fp => some (.jarr [fp.1, fp.2.val])
  | .controlMessageReceive _ _ _ fp => some (.jarr [fp.1, fp.2.val])
  | .controllerStateChange _ _ fp _ _ =>
      some (match fp with | .raw w => w | .tup t o => .jarr [t, o.val])
  | .deterministicValue _ => none
  | .invariantViolation _ _ => none

/-- The `PendingReceive` correlation key handed to the god scheduler
(`god_scheduler.PendingReceive(dpid, controller_id, fingerprint)`). -/
structure PendingReceive where
  dpid : JsonVal
  controller_id : List JsonVal
  fingerprint : OFFingerprint
deriving DecidableEq

/-- The external god scheduler at its interface boundary: the pending
messages it buffers and the ones it was told to deliver. -/
structure GodScheduler where
  pending : List PendingReceive
  scheduled : List PendingReceive
deriving DecidableEq

/-- The `god_scheduler.message_waiting(pending_receive) -> bool`. -/
def message_waiting (g : GodScheduler) (p : PendingReceive) : Bool :=
  g.pending.contains p

/-- The `god_scheduler.schedule(pending_receive)`: deliver the message. -/
def schedule (g : GodScheduler) (p : PendingReceive) : GodScheduler :=
  ⟨g.pending.erase p, g.scheduled ++ [p]⟩

/-- A buffered dataplane event held by the patch panel. -/
structure DpEvent where
  id : Nat
  fingerprint : DPFingerprint
deriving DecidableEq

/-- The external patch panel at its interface boundary. -/
structure PatchPanel where
  buffered : List DpEvent
  dropped : List DpEvent
  permitted : List DpEvent
deriving DecidableEq

/-- The `patch_panel.get_buffered_dp_event(fingerprint) -> event | None`. -/
def get_buffered_dp_event (p : PatchPanel) (fp : DPFingerprint) : Option DpEvent :=
  p.buffered.find? (fun e => e.fingerprint == fp)

/-- The `patch_panel.drop_dp_event(dp_event)`. -/
def drop_dp_event (p : PatchPanel) (e : DpEvent) : PatchPanel :=
  ⟨p.buffered.erase e, p.dropped ++ [e], p.permitted⟩

/-- The `patch_panel.permit_dp_event(dp_event)`. -/
def permit_dp_event (p : PatchPanel) (e : DpEvent) : PatchPanel :=
  ⟨p.buffered.erase e, p.dropped, p.permitted ++ [e]⟩

/-- The `PendingStateChange` namedtuple (`replay_event.py:574-576`). -/
structure PendingStateChange where
  controller_id : List JsonVal
  time : SyncT
  fingerprint : CSCFingerprint
  name : JsonVal
  value : JsonVal
deriving DecidableEq

/-- The controller sync callback at its interface boundary. -/
structure SyncCallback where
  pendingStateChanges : List PendingStateChange
deriving DecidableEq

/-- The live simulation handle: the collaborators `proceed` touches,
each specified only at its boundary (§6 of the module's own docs). Calls
whose internals are fully external (crash/recover/sever/repair/migrate,
trace injection, sleeping) are recorded on `callLog`. -/
structure Simulation where
  god : GodScheduler
  panel : PatchPanel
  channels : List ((JsonVal × List JsonVal) × Bool)
  sync : SyncCallback
  dataplane_trace : Option (List Nat)
  callLog : List String
deriving DecidableEq

/-- The `switch.get_connection(controller_id).currently_blocked`, as an
association on (dpid, controller id); `none` when topology lookup fails. -/
def find_channel (sim : Simulation) (d : JsonVal) (c : List JsonVal) :
    Option Bool :=
  (sim.channels.find? (fun ch => ch.1 == (d, c))).map (fun ch => ch.2)

/-- The `connection.block()` / `connection.unblock()`: set the channel's
blocked flag. -/
def set_channel (sim : Simulation) (d : JsonVal) (c : List JsonVal)
    (b : Bool) : Simulation :=
  { sim with channels :=
      sim.channels.map (fun ch => if ch.1 == (d, c) then (ch.1, b) else ch) }

/-- Append an external collaborator call to the log. -/
def logCall (sim : Simulation) (entry : String) : Simulation :=
  { sim with callLog := sim.callLog ++ [entry] }

/-- Python truthiness of a stored JSON value (`if self.fail_on_error:`):
zero, empty containers, empty strings, `False` and `None` are falsy. -/
def jsonTruthy : JsonVal → Bool
  | .jnum n => n != 0
  | .jstr s => s != ""
  | .jbool b => b
  | .jnull => false
  | .jarr l => !l.isEmpty
  | .jobj l => !l.isEmpty

/-- What one `proceed(simulation)` call does. A Python method that falls
off the end returns `None`; `ret none` models that, `ret (some b)` an
explicit `return b`. `exit` is the `exit(5)` process termination. -/
inductive ProcOutcome where
  | ret (v : Option Bool) (sim : Simulation)
  | raise (msg : String) (sim : Simulation)
  | exit (code : Nat)
deriving DecidableEq

/-- Python truthiness of a `proceed` result as the Replayer's `if` sees it:
`None` is falsy. -/
def pyTruthy : Option Bool → Bool
  | none => false
  | some b => b

/-- The `proceed` for every concrete event (`replay_event.py`, one method per
class). `runCode` interprets a marshalled invariant-check function against
the simulation (`self.invariant_check(simulation)`), external to this
module. Fully external mutations are logged via `logCall`; collaborator
lookups that cannot fail in-module are not modelled as raising. -/
def Event.proceed (runCode : PyCode → Simulation → List String) :
    Event → Simulation → ProcOutcome
  | .switchFailure _ dpid, sim =>
      -- get_switch + crash_switch, then `return True` (142-145)
      .ret (some true) (logCall sim ("crash_switch " ++ toString dpid))
  | .switchRecovery _ dpid, sim =>
      -- recover_switch with a swallowed TimeoutError, then `return True`
      .ret (some true) (logCall sim ("recover_switch " ++ toString dpid))
  | .linkFailure _ sd sp ed ep, sim =>
      .ret (some true) (logCall sim
        ("sever_link " ++ toString sd ++ " " ++ toString sp ++ " " ++
         toString ed ++ " " ++ toString ep))
  | .linkRecovery _ sd sp ed ep, sim =>
      .ret (some true) (logCall sim
        ("repair_link " ++ toString sd ++ " " ++ toString sp ++ " " ++
         toString ed ++ " " ++ toString ep))
  | .controllerFailure _ c, sim =>
      .ret (some true) (logCall sim ("kill_controller " ++ toString c.2))
  | .controllerRecovery _ c, sim =>
      .ret (some true) (logCall sim ("reboot_controller " ++ toString c.2))
  | .hostMigration _ od op nd np, sim =>
      .ret (some true) (logCall sim
        ("migrate_host " ++ toString od ++ " " ++ toString op ++ " " ++
         toString nd ++ " " ++ toString np))
  | .policyChange _ _, sim =>
      -- body is `pass` (338-340): falls through, returning None
      .ret none sim
  | .trafficInjection _, sim =>
      -- 353-357: fatal RuntimeError without a dataplane trace
      match sim.dataplane_trace with
      | none => .raise "No dataplane trace specified!" sim
      | some _ => .ret (some true) (logCall sim "inject_trace_event")
  | .waitTime _ _, sim =>
      .ret (some true) (logCall sim "sleep")
  | .checkInvariants _ fail_on_error invariant_check, sim =>
      -- 389-399
      let violations := runCode invariant_check sim
      if violations ≠ [] then
        if jsonTruthy fail_on_error then .exit 5
        else .ret (some true) sim
      else .ret (some true) sim
  | .controlChannelBlock _ d c, sim =>
      -- 430-436
      match find_channel sim d c with
      | none => .raise "no such connection" sim
      | some true => .raise "Expected channel to not be blocked" sim
      | some false => .ret (some true) (set_channel sim d c true)
  | .controlChannelUnblock _ d c, sim =>
      -- 457-463
      match find_channel sim d c with
      | none => .raise "no such connection" sim
      | some false => .raise "Expected channel to be blocked" sim
      | some true => .ret (some true) (set_channel sim d c false)
  | .dataplaneDrop _ fp, sim =>
      -- 490-495
      match get_buffered_dp_event sim.panel fp.2 with
      | some dp_event =>
          .ret (some true) { sim with panel := drop_dp_event sim.panel dp_event }
      | none => .ret (some false) sim
  | .dataplanePermit _ fp, sim =>
      -- 513-518
      match get_buffered_dp_event sim.panel fp.2 with
      | some dp_event =>
          .ret (some true) { sim with panel := permit_dp_event sim.panel dp_event }
      | none => .ret (some false) sim
  | .controlMessageReceive _ d c fp, sim =>
      -- 555-562
      let pending_receive : PendingReceive := ⟨d, c, fp.2⟩
      if message_waiting sim.god pending_receive then
        .ret (some true) { sim with god := schedule sim.god pending_receive }
      else .ret (some false) sim
  | .controllerStateChange b c fp n v, sim =>
      -- 592-601
      let pending : PendingStateChange := ⟨c, b.time, fp, n, v⟩
      if sim.sync.pendingStateChanges.contains pending then
        .ret (some true)
          { sim with sync := ⟨sim.sync.pendingStateChanges.erase pending⟩ }
      else .ret (some false) sim
  | .deterministicValue _, sim =>
      -- inherits InternalEvent.proceed (101-104): body is a comment + pass
      .ret none sim
  | .invariantViolation _ _, sim =>
      -- InvariantViolation.proceed takes no simulation argument (632);
      -- calling it through the driver protocol is an arity TypeError
      .raise "TypeError: proceed() takes exactly 1 argument" sim

/-- Peeling one step off an `Except` do-chain that succeeded. -/
theorem exceptBind_ok {α β : Type} {x : Except PyErr α} {f : α → Except PyErr β}
    {b : β} (h : x >>= f = .ok b) : ∃ a, x = .ok a ∧ f a = .ok b := by
  cases x with
  | ok a => exact ⟨a, rfl, h⟩
  | error e => exact absurd h (by simp [Bind.bind, Except.bind])

/-- An `Except` do-chain whose first step failed fails the same way. -/
theorem exceptBind_error {α β : Type} {x : Except PyErr α}
    (f : α → Except PyErr β) {e0 : PyErr} (h : x = .error e0) :
    x >>= f = .error e0 := by
  subst h; rfl

/-- No concrete event has the abstract class `Event` as its dynamic type. -/
theorem className_ne_Event (e : Event) : className e ≠ "Event" := by
  intro h; cases e <;> simp [className] at h

/-- Claim C2: the claim says two events are equal iff their labels are
equal. The code's `Event.__eq__` guard `type(other) != Event`
(`replay_event.py:77`) compares against the abstract class itself, which is
never any instance's dynamic type, so `__eq__` is `False` for every pair of
events — even for one event compared with itself — regardless of labels.
(The hash half of the claim, `Event_hash h e = h e.base.label`, holds by
definition.) -/
theorem claim_c2_eq_always_false (e1 e2 : Event) : Event_eq e1 e2 = false := by
  simp [Event_eq, className_ne_Event e2]

/-- Claim C9: the claim says `proceed` of an internal event with no
enactable effect returns true. `InternalEvent.proceed`
(`replay_event.py:101-104`), inherited by `DeterministicValue`, is a bare
`pass`: it returns `None`, which is falsy under the driver's boolean check,
not `True`. -/
theorem claim_c9_internal_proceed_returns_none
    (rc : PyCode → Simulation → List String) (b : EventBase) (sim : Simulation) :
    Event.proceed rc (.deterministicValue b) sim = .ret none sim ∧
    pyTruthy none = false :=
  ⟨rfl, rfl⟩

/-- Claim C8: `CheckInvariants.proceed` (`replay_event.py:389-399`) returns
`True` on every call on which it returns; with a non-empty violation list it
exits the process with status 5 exactly when `fail_on_error` is truthy, and
only logs otherwise. -/
theorem claim_c8_check_invariants (rc : PyCode → Simulation → List String)
    (b : EventBase) (foe : JsonVal) (code : PyCode) (sim : Simulation) :
    (∀ v s', Event.proceed rc (.checkInvariants b foe code) sim = .ret v s' →
        v = some true ∧ s' = sim) ∧
    (rc code sim ≠ [] → jsonTruthy foe = true →
        Event.proceed rc (.checkInvariants b foe code) sim = .exit 5) ∧
    (rc code sim ≠ [] → jsonTruthy foe = false →
        Event.proceed rc (.checkInvariants b foe code) sim = .ret (some true) sim) ∧
    (rc code sim = [] →
        Event.proceed rc (.checkInvariants b foe code) sim = .ret (some true) sim) := by
  unfold Event.proceed
  by_cases hv : rc code sim = [] <;> by_cases hf : jsonTruthy foe <;>
    simp [hv, hf]

/-- An empty simulation handle, for concrete instantiations. -/
def sim0 : Simulation := ⟨⟨[], []⟩, ⟨[], [], []⟩, [], ⟨[]⟩, none, []⟩

/-- A concrete event base used by concrete instantiations. -/
def b0 : EventBase := ⟨"e1", ⟨.jnum 0, .jnum 0⟩, []⟩

/-- A trivial interpretation of marshalled invariant checks. -/
def rc0 : PyCode → Simulation → List String := fun _ _ => []

/-- Witness for C8: with a check reporting one violation, a truthy
`fail_on_error` exits with status 5, a falsy one still returns `True`. -/
theorem claim_c8_witness :
    ((fun (_ : PyCode) (_ : Simulation) => ["violation"]) check_correspondence sim0 ≠ []) ∧
    jsonTruthy (.jbool true) = true ∧
    Event.proceed (fun _ _ => ["violation"])
      (.checkInvariants b0 (.jbool true) check_correspondence) sim0 = .exit 5 ∧
    Event.proceed (fun _ _ => ["violation"])
      (.checkInvariants b0 (.jbool false) check_correspondence) sim0 =
        .ret (some true) sim0 := by
  refine ⟨by decide, rfl, ?_, ?_⟩
  · exact (claim_c8_check_invariants (fun _ _ => ["violation"]) b0 (.jbool true)
      check_correspondence sim0).2.1 (by decide) rfl
  · exact (claim_c8_check_invariants (fun _ _ => ["violation"]) b0 (.jbool false)
      check_correspondence sim0).2.2.1 (by decide) rfl

/-- Claim C7: `ControlChannelBlock.proceed` (`replay_event.py:430-436`)
raises when the channel is already blocked and otherwise blocks it and
returns `True`; `ControlChannelUnblock.proceed` (457-463) raises when it is
not blocked and otherwise unblocks it and returns `True`. -/
theorem claim_c7_channel_block_unblock (rc : PyCode → Simulation → List String)
    (b : EventBase) (d : JsonVal) (c : List JsonVal) (sim : Simulation) :
    (find_channel sim d c = some true →
        Event.proceed rc (.controlChannelBlock b d c) sim =
          .raise "Expected channel to not be blocked" sim) ∧
    (find_channel sim d c = some false →
        Event.proceed rc (.controlChannelBlock b d c) sim =
          .ret (some true) (set_channel sim d c true)) ∧
    (find_channel sim d c = some false →
        Event.proceed rc (.controlChannelUnblock b d c) sim =
          .raise "Expected channel to be blocked" sim) ∧
    (find_channel sim d c = some true →
        Event.proceed rc (.controlChannelUnblock b d c) sim =
          .ret (some true) (set_channel sim d c false)) := by
  refine ⟨fun h => ?_, fun h => ?_, fun h => ?_, fun h => ?_⟩ <;>
    simp [Event.proceed, h]

/-- A simulation with one blocked control channel. -/
def simBlocked : Simulation :=
  { sim0 with channels := [((.jnum 1, [.jstr "c0"]), true)] }

/-- A simulation with one unblocked control channel. -/
def simUnblocked : Simulation :=
  { sim0 with channels := [((.jnum 1, [.jstr "c0"]), false)] }

/-- Witness for C7 at a concrete blocked and a concrete unblocked channel. -/
theorem claim_c7_witness :
    find_channel simBlocked (.jnum 1) [.jstr "c0"] = some true ∧
    Event.proceed rc0 (.controlChannelBlock b0 (.jnum 1) [.jstr "c0"]) simBlocked =
      .raise "Expected channel to not be blocked" simBlocked ∧
    find_channel simUnblocked (.jnum 1) [.jstr "c0"] = some false ∧
    Event.proceed rc0 (.controlChannelBlock b0 (.jnum 1) [.jstr "c0"]) simUnblocked =
      .ret (some true) (set_channel simUnblocked (.jnum 1) [.jstr "c0"] true) ∧
    Event.proceed rc0 (.controlChannelUnblock b0 (.jnum 1) [.jstr "c0"]) simUnblocked =
      .raise "Expected channel to be blocked" simUnblocked ∧
    Event.proceed rc0 (.controlChannelUnblock b0 (.jnum 1) [.jstr "c0"]) simBlocked =
      .ret (some true) (set_channel simBlocked (.jnum 1) [.jstr "c0"] false) := by
  refine ⟨by decide, ?_, by decide, ?_, ?_, ?_⟩
  · exact (claim_c7_channel_block_unblock rc0 b0 (.jnum 1) [.jstr "c0"]
      simBlocked).1 (by decide)
  · exact (claim_c7_channel_block_unblock rc0 b0 (.jnum 1) [.jstr "c0"]
      simUnblocked).2.1 (by decide)
  · exact (claim_c7_channel_block_unblock rc0 b0 (.jnum 1) [.jstr "c0"]
      simUnblocked).2.2.1 (by decide)
  · exact (claim_c7_channel_block_unblock rc0 b0 (.jnum 1) [.jstr "c0"]
      simBlocked).2.2.2 (by decide)

/-- Claim C6: for `DataplaneDrop` (`replay_event.py:490-495`),
`DataplanePermit` (513-518) and `ControlMessageReceive` (555-562),
`proceed` returns `False` and leaves the simulation untouched when the
targeted buffered packet / pending message is absent (no raise), and
returns `True` exactly when it is present, after enacting the drop, permit
or schedule. -/
theorem claim_c6_not_ready (rc : PyCode → Simulation → List String)
    (b : EventBase) (d : JsonVal) (c : List JsonVal)
    (fpD : JsonVal × DPFingerprint) (fpO : JsonVal × OFFingerprint)
    (sim : Simulation) :
    (get_buffered_dp_event sim.panel fpD.2 = none →
        Event.proceed rc (.dataplaneDrop b fpD) sim = .ret (some false) sim) ∧
    (∀ ev, get_buffered_dp_event sim.panel fpD.2 = some ev →
        Event.proceed rc (.dataplaneDrop b fpD) sim =
          .ret (some true) { sim with panel := drop_dp_event sim.panel ev }) ∧
    (get_buffered_dp_event sim.panel fpD.2 = none →
        Event.proceed rc (.dataplanePermit b fpD) sim = .ret (some false) sim) ∧
    (∀ ev, get_buffered_dp_event sim.panel fpD.2 = some ev →
        Event.proceed rc (.dataplanePermit b fpD) sim =
          .ret (some true) { sim with panel := permit_dp_event sim.panel ev }) ∧
    (message_waiting sim.god ⟨d, c, fpO.2⟩ = false →
        Event.proceed rc (.controlMessageReceive b d c fpO) sim =
          .ret (some false) sim) ∧
    (message_waiting sim.god ⟨d, c, fpO.2⟩ = true →
        Event.proceed rc (.controlMessageReceive b d c fpO) sim =
          .ret (some true) { sim with god := schedule sim.god ⟨d, c, fpO.2⟩ }) := by
  refine ⟨fun h => ?_, fun ev h => ?_, fun h => ?_, fun ev h => ?_,
    fun h => ?_, fun h => ?_⟩ <;>
    simp [Event.proceed, h]

/-- A fingerprint that is buffered in `simPanel` below. -/
def fpA : DPFingerprint := ⟨.jobj [("dl_src", .jstr "00:01")]⟩

/-- A fingerprint that is not buffered in `simPanel` below. -/
def fpB : DPFingerprint := ⟨.jobj [("dl_src", .jstr "00:02")]⟩

/-- The one dataplane event buffered in `simPanel` below. -/
def dp1 : DpEvent := ⟨1, fpA⟩

/-- A pending control-plane message. -/
def pr1 : PendingReceive := ⟨.jnum 1, [.jstr "c0"], ⟨.jobj [("type", .jstr "f")]⟩⟩

/-- A simulation with one buffered dataplane event and one pending message. -/
def simPanel : Simulation :=
  { sim0 with panel := ⟨[dp1], [], []⟩, god := ⟨[pr1], []⟩ }

/-- Witness for C6: a present and an absent target for the drop case, and
both cases for the scheduler. -/
theorem claim_c6_witness :
    get_buffered_dp_event simPanel.panel fpB = none ∧
    Event.proceed rc0 (.dataplaneDrop b0 (.jstr "DataplaneDrop", fpB)) simPanel =
      .ret (some false) simPanel ∧
    get_buffered_dp_event simPanel.panel fpA = some dp1 ∧
    Event.proceed rc0 (.dataplaneDrop b0 (.jstr "DataplaneDrop", fpA)) simPanel =
      .ret (some true) { simPanel with panel := drop_dp_event simPanel.panel dp1 } ∧
    message_waiting simPanel.god ⟨pr1.dpid, pr1.controller_id, pr1.fingerprint⟩ = true ∧
    Event.proceed rc0
      (.controlMessageReceive b0 pr1.dpid pr1.controller_id
        (.jstr "ControlMessageReceive", pr1.fingerprint)) simPanel =
      .ret (some true) { simPanel with god := schedule simPanel.god pr1 } := by
  refine ⟨by decide, ?_, by decide, ?_, by decide, ?_⟩
  · exact (claim_c6_not_ready rc0 b0 (.jnum 0) [] (.jstr "DataplaneDrop", fpB)
      (.jstr "x", ⟨.jnull⟩) simPanel).1 (by decide)
  · exact (claim_c6_not_ready rc0 b0 (.jnum 0) [] (.jstr "DataplaneDrop", fpA)
      (.jstr "x", ⟨.jnull⟩) simPanel).2.1 dp1 (by decide)
  · exact (claim_c6_not_ready rc0 b0 pr1.dpid pr1.controller_id
      (.jstr "d", fpA) (.jstr "ControlMessageReceive", pr1.fingerprint)
      simPanel).2.2.2.2.2 (by decide)

/-- The concrete `ControllerRecovery` of the C1 evaluation. -/
def crEventC1 : Event :=
  .controllerRecovery ⟨"e2", ⟨.jnum 0, .jnum 0⟩, []⟩ (.jstr "127.0.0.1", 8899)

/-- Claim C1: the round-trip claim fails on `ControllerRecovery`. Encoding a
`ControllerRecovery` and decoding the record with its own class's
`from_json` (`replay_event.py:286-292`) yields a `ControllerFailure` —
line 292 constructs the wrong class — so the decoded event is of a
different concrete variant and carries a different fingerprint, though the
label survives. -/
theorem claim_c1_code_evaluation :
    ∃ rec e' s',
      toRecord crEventC1 = .ok rec ∧
      ControllerRecovery_from_json rec initialLabelState = .ok (e', s') ∧
      className crEventC1 = "ControllerRecovery" ∧
      className e' = "ControllerFailure" ∧
      e'.base.label = crEventC1.base.label ∧
      eventFingerprint e' ≠ eventFingerprint crEventC1 := by
  refine ⟨_, .controllerFailure ⟨"e2", ⟨.jnum 0, .jnum 0⟩, []⟩ (.jstr "127.0.0.1", 8899),
    ⟨1, {2}⟩, rfl, ?_, rfl, rfl, rfl, by decide⟩
  decide

/-- A well-formed `SwitchFailure` record whose `dependent_labels` is
non-empty (the unit test logs such records). -/
def c4Record : Record :=
  [("label", .jstr "e1"), ("time", .jarr [.jnum 0, .jnum 0]),
   ("dependent_labels", .jarr [.jstr "e2"]),
   ("dpid", .jnum 8), ("class", .jstr "SwitchFailure")]

/-- Counterexample for C4: the record stores `dependent_labels = ["e2"]`,
but the decoded event carries `[]` — no `from_json` passes the stored
`dependent_labels` to the constructor. -/
theorem claim_c4_counterexample :
    ∃ e s',
      SwitchFailure_from_json c4Record initialLabelState = .ok (e, s') ∧
      lookupField c4Record "dependent_labels" = some (.jarr [.jstr "e2"]) ∧
      e.base.dependent_labels = [] ∧
      e.base.dependent_labels ≠ ["e2"] := by
  refine ⟨.switchFailure ⟨"e1", ⟨.jnum 0, .jnum 0⟩, []⟩ 8, ⟨1, {1}⟩,
    by decide, rfl, rfl, by decide⟩

/-- Counterexample for C3: two events reconstructed with the same explicit
label "e1" are both created without any uniqueness check, so the resulting
labels are not pairwise distinct. -/
theorem claim_c3_counterexample :
    ∃ s',
      createLabels [('e', some "e1"), ('e', some "e1")] initialLabelState =
        .ok (["e1", "e1"], s') ∧
      ¬ (["e1", "e1"] : List String).Nodup :=
  ⟨⟨1, {1}⟩, by decide, by decide⟩

/-- The `Except.ok a >>= f` runs `f`. -/
theorem ok_bind {α β : Type} (a : α) (f : α → Except PyErr β) :
    ((Except.ok a : Except PyErr α) >>= f) = f a := rfl

/-- The `Except.error e >>= f` keeps the error. -/
theorem error_bind {α β : Type} (e : PyErr) (f : α → Except PyErr β) :
    ((Except.error e : Except PyErr α) >>= f) = .error e := rfl

/-- The `pure` in the `Except` monad is `ok`. -/
theorem pure_ok {α : Type} (a : α) : (pure a : Except PyErr α) = .ok a := rfl

/-- If every listed field is present, `assert_fields_exist` passes. -/
theorem assert_ok_of_present (rec : Record) (fs : List String)
    (h : ∀ g ∈ fs, (lookupField rec g).isSome) :
    assert_fields_exist rec fs = .ok () := by
  induction fs with
  | nil => rfl
  | cons g gs ih =>
      have hg := h g (List.mem_cons_self g gs)
      simp only [assert_fields_exist, hg, if_true]
      exact ih (fun x hx => h x (List.mem_cons_of_mem _ hx))

/-- If exactly `f` is missing among the listed fields,
`assert_fields_exist` raises the `ValueError` naming `f`. -/
theorem assert_error_first_missing (rec : Record) (f : String) :
    ∀ fs : List String, f ∈ fs → lookupField rec f = none →
    (∀ g ∈ fs, g ≠ f → (lookupField rec g).isSome) →
    assert_fields_exist rec fs = .error (.fieldMissing f) := by
  intro fs
  induction fs with
  | nil => intro h; cases h
  | cons g gs ih =>
      intro hmem hnone hpres
      by_cases hg : g = f
      · subst hg; simp [assert_fields_exist, hnone]
      · have hs : (lookupField rec g).isSome :=
          hpres g (List.mem_cons_self g gs) hg
        simp only [assert_fields_exist, hs, if_true]
        refine ih ?_ hnone (fun x hx hne => hpres x (List.mem_cons_of_mem _ hx) hne)
        cases List.mem_cons.mp hmem with
        | inl hh => exact absurd hh.symm hg
        | inr hh => exact hh

/-- A record without `label` fails `extract_label_time` naming `label`. -/
theorem extract_error_label (rec : Record)
    (h : lookupField rec "label" = none) :
    extract_label_time rec = .error (.fieldMissing "label") :=
  exceptBind_error _ (by simp [assert_fields_exist, h])

/-- A record with `label` but no `time` fails `extract_label_time` naming
`time`. -/
theorem extract_error_time (rec : Record)
    (hl : (lookupField rec "label").isSome)
    (h : lookupField rec "time" = none) :
    extract_label_time rec = .error (.fieldMissing "time") :=
  exceptBind_error _ (by simp [assert_fields_exist, hl, h])

/-- With `label` present and a well-formed `time` pair,
`extract_label_time` succeeds and returns exactly the stored values. -/
theorem extract_ok_of (rec : Record) (lv t0 t1 : JsonVal) (rest : List JsonVal)
    (hl : lookupField rec "label" = some lv)
    (ht : lookupField rec "time" = some (.jarr (t0 :: t1 :: rest))) :
    extract_label_time rec = .ok (lv, ⟨t0, t1⟩) := by
  have hA : assert_fields_exist rec ["label", "time"] = .ok () :=
    assert_ok_of_present rec _ (by
      intro g hg
      rcases List.mem_cons.mp hg with rfl | hg
      · rw [hl]; rfl
      rcases List.mem_cons.mp hg with rfl | hg
      · rw [ht]; rfl
      · cases hg)
  simp [extract_label_time, hA, getField, hl, ht, ok_bind]

/-- Any `from_json` whose `extract_label_time` fails fails the same way:
every decoder starts with `extract_label_time`. -/
theorem fromJson_extract_error (cls : EClass) (rec : Record) (s : LabelState)
    (e0 : PyErr) (h : extract_label_time rec = .error e0) :
    fromJson cls rec s = .error e0 := by
  cases cls <;> exact exceptBind_error _ h

/-- Claim C10: every decoder requires a `time` entry. With `label` present
but `time` absent, decode fails with the `ValueError` naming `time`, for
every variant (including field-less `TrafficInjection`); and no record
lacking `time` is ever decoded successfully by any variant. -/
theorem claim_c10_time_required (cls : EClass) (rec : Record) (s : LabelState) :
    ((lookupField rec "label").isSome → lookupField rec "time" = none →
        fromJson cls rec s = .error (.fieldMissing "time") ∧
        (PyErr.fieldMissing "time").namesField "time" = true) ∧
    (lookupField rec "time" = none →
        ∀ e s', fromJson cls rec s ≠ .ok (e, s')) := by
  constructor
  · intro hl ht
    exact ⟨fromJson_extract_error cls rec s _ (extract_error_time rec hl ht), rfl⟩
  · intro ht e s' hok
    cases hcase : lookupField rec "label" with
    | some lv =>
        rw [fromJson_extract_error cls rec s _
          (extract_error_time rec (by rw [hcase]; rfl) ht)] at hok
        exact Except.noConfusion hok
    | none =>
        rw [fromJson_extract_error cls rec s _ (extract_error_label rec hcase)]
          at hok
        exact Except.noConfusion hok

/-- Witness for C10: a `TrafficInjection` record with only a label fails
decode with the error naming `time`. -/
theorem claim_c10_witness :
    (lookupField [("label", JsonVal.jstr "e1")] "label").isSome = true ∧
    lookupField [("label", JsonVal.jstr "e1")] "time" = none ∧
    fromJson .trafficInjection [("label", .jstr "e1")] initialLabelState =
      .error (.fieldMissing "time") := by
  refine ⟨by decide, by decide, ?_⟩
  exact ((claim_c10_time_required .trafficInjection
    [("label", .jstr "e1")] initialLabelState).1 (by decide) (by decide)).1

/-- The fields a record must contain for each variant's `from_json` to
succeed: `label`/`time` via `extract_label_time`, then the fields the
decoder asserts (or, for the controller events, accesses directly). -/
def requiredFields : EClass → List String
  | .switchFailure => ["label", "time", "dpid"]
  | .switchRecovery => ["label", "time", "dpid"]
  | .linkFailure =>
      ["label", "time", "start_dpid", "start_port_no", "end_dpid", "end_port_no"]
  | .linkRecovery =>
      ["label", "time", "start_dpid", "start_port_no", "end_dpid", "end_port_no"]
  | .controllerFailure => ["label", "time", "controller_id"]
  | .controllerRecovery => ["label", "time", "controller_id"]
  | .hostMigration =>
      ["label", "time", "old_ingress_dpid", "old_ingress_port_no",
       "new_ingress_dpid", "new_ingress_port_no"]
  | .policyChange => ["label", "time", "request_type"]
  | .trafficInjection => ["label", "time"]
  | .waitTime => ["label", "time", "wait_time"]
  | .checkInvariants => ["label", "time"]
  | .controlChannelBlock => ["label", "time", "dpid", "controller_id"]
  | .controlChannelUnblock => ["label", "time", "dpid", "controller_id"]
  | .dataplaneDrop => ["label", "time", "fingerprint"]
  | .dataplanePermit => ["label", "time", "fingerprint"]
  | .controlMessageReceive =>
      ["label", "time", "dpid", "controller_id", "fingerprint"]
  | .controllerStateChange =>
      ["label", "time", "controller_id", "fingerprint", "name", "value"]

/-- The `label` is required by every decoder. -/
theorem label_mem_required (cls : EClass) : "label" ∈ requiredFields cls := by
  cases cls <;> simp [requiredFields]

/-- A required field that is neither `label` nor `time` is one of the
variant's own fields. -/
theorem domain_mem_of_required {f : String} {ds : List String}
    (hf : f ∈ "label" :: "time" :: ds) (hLab : f ≠ "label")
    (hTim : f ≠ "time") : f ∈ ds := by
  rcases List.mem_cons.mp hf with rfl | hf2
  · exact absurd rfl hLab
  rcases List.mem_cons.mp hf2 with rfl | hf3
  · exact absurd rfl hTim
  · exact hf3

/-- Claim C5: for every variant, a record that contains all required fields
except one — with a well-formed `time` when the missing field is a domain
field — fails decode with an error naming exactly the missing field (the
`ValueError` from `assert_fields_exist`, or, for the controller events
whose assert call is a no-op, the `KeyError` of the direct dict access).
Decoding never touches any simulation state. -/
theorem claim_c5_missing_field (cls : EClass) (f : String) (rec : Record)
    (s : LabelState)
    (hf : f ∈ requiredFields cls)
    (hmiss : lookupField rec f = none)
    (hpres : ∀ g ∈ requiredFields cls, g ≠ f → (lookupField rec g).isSome)
    (htime : f ≠ "label" → f ≠ "time" →
        ∃ t0 t1 rest, lookupField rec "time" = some (.jarr (t0 :: t1 :: rest))) :
    ∃ err, fromJson cls rec s = .error err ∧ err.namesField f = true := by
  by_cases hLab : f = "label"
  · subst hLab
    exact ⟨.fieldMissing "label",
      fromJson_extract_error cls rec s _ (extract_error_label rec hmiss),
      by simp [PyErr.namesField]⟩
  by_cases hTim : f = "time"
  · subst hTim
    have hlab : (lookupField rec "label").isSome :=
      hpres "label" (label_mem_required cls) (fun hh => hLab hh.symm)
    exact ⟨.fieldMissing "time",
      fromJson_extract_error cls rec s _ (extract_error_time rec hlab hmiss),
      by simp [PyErr.namesField]⟩
  obtain ⟨t0, t1, rest, ht⟩ := htime hLab hTim
  have hlabS : (lookupField rec "label").isSome :=
    hpres "label" (label_mem_required cls) (fun hh => hLab hh.symm)
  obtain ⟨lv, hl⟩ := Option.isSome_iff_exists.mp hlabS
  have hE : extract_label_time rec = .ok (lv, ⟨t0, t1⟩) :=
    extract_ok_of rec lv t0 t1 rest hl ht
  cases cls with
  | switchFailure =>
      have hfD := domain_mem_of_required hf hLab hTim
      refine ⟨.fieldMissing f, ?_, by simp [PyErr.namesField]⟩
      have hA := assert_error_first_missing rec f ["dpid"] hfD hmiss
        (fun g hg hne =>
          hpres g (List.mem_cons_of_mem _ (List.mem_cons_of_mem _ hg)) hne)
      simp only [fromJson, SwitchFailure_from_json, hE, ok_bind, hA, error_bind]
  | switchRecovery =>
      have hfD := domain_mem_of_required hf hLab hTim
      refine ⟨.fieldMissing f, ?_, by simp [PyErr.namesField]⟩
      have hA := assert_error_first_missing rec f ["dpid"] hfD hmiss
        (fun g hg hne =>
          hpres g (List.mem_cons_of_mem _ (List.mem_cons_of_mem _ hg)) hne)
      simp only [fromJson, SwitchRecovery_from_json, hE, ok_bind, hA, error_bind]
  | linkFailure =>
      have hfD := domain_mem_of_required hf hLab hTim
      refine ⟨.fieldMissing f, ?_, by simp [PyErr.namesField]⟩
      have hA := assert_error_first_missing rec f
        ["start_dpid", "start_port_no", "end_dpid", "end_port_no"] hfD hmiss
        (fun g hg hne =>
          hpres g (List.mem_cons_of_mem _ (List.mem_cons_of_mem _ hg)) hne)
      simp only [fromJson, LinkFailure_from_json, hE, ok_bind, hA, error_bind]
  | linkRecovery =>
      have hfD := domain_mem_of_required hf hLab hTim
      refine ⟨.fieldMissing f, ?_, by simp [PyErr.namesField]⟩
      have hA := assert_error_first_missing rec f
        ["start_dpid", "start_port_no", "end_dpid", "end_port_no"] hfD hmiss
        (fun g hg hne =>
          hpres g (List.mem_cons_of_mem _ (List.mem_cons_of_mem _ hg)) hne)
      simp only [fromJson, LinkRecovery_from_json, hE, ok_bind, hA, error_bind]
  | controllerFailure =>
      have hfD : f = "controller_id" := by
        simpa using domain_mem_of_required hf hLab hTim
      subst hfD
      refine ⟨.keyError "controller_id", ?_, by simp [PyErr.namesField]⟩
      simp only [fromJson, ControllerFailure_from_json, hE, ok_bind,
        assert_fields_exist, getField, hmiss, error_bind]
  | controllerRecovery =>
      have hfD : f = "controller_id" := by
        simpa using domain_mem_of_required hf hLab hTim
      subst hfD
      refine ⟨.keyError "controller_id", ?_, by simp [PyErr.namesField]⟩
      simp only [fromJson, ControllerRecovery_from_json, hE, ok_bind,
        assert_fields_exist, getField, hmiss, error_bind]
  | hostMigration =>
      have hfD := domain_mem_of_required hf hLab hTim
      refine ⟨.fieldMissing f, ?_, by simp [PyErr.namesField]⟩
      have hA := assert_error_first_missing rec f
        ["old_ingress_dpid", "old_ingress_port_no",
         "new_ingress_dpid", "new_ingress_port_no"] hfD hmiss
        (fun g hg hne =>
          hpres g (List.mem_cons_of_mem _ (List.mem_cons_of_mem _ hg)) hne)
      simp only [fromJson, HostMigration_from_json, hE, ok_bind, hA, error_bind]
  | policyChange =>
      have hfD := domain_mem_of_required hf hLab hTim
      refine ⟨.fieldMissing f, ?_, by simp [PyErr.namesField]⟩
      have hA := assert_error_first_missing rec f ["request_type"] hfD hmiss
        (fun g hg hne =>
          hpres g (List.mem_cons_of_mem _ (List.mem_cons_of_mem _ hg)) hne)
      simp only [fromJson, PolicyChange_from_json, hE, ok_bind, hA, error_bind]
  | trafficInjection =>
      exact absurd (domain_mem_of_required hf hLab hTim) (List.not_mem_nil f)
  | waitTime =>
      have hfD := domain_mem_of_required hf hLab hTim
      refine ⟨.fieldMissing f, ?_, by simp [PyErr.namesField]⟩
      have hA := assert_error_first_missing rec f ["wait_time"] hfD hmiss
        (fun g hg hne =>
          hpres g (List.mem_cons_of_mem _ (List.mem_cons_of_mem _ hg)) hne)
      simp only [fromJson, WaitTime_from_json, hE, ok_bind, hA, error_bind]
  | checkInvariants =>
      exact absurd (domain_mem_of_required hf hLab hTim) (List.not_mem_nil f)
  | controlChannelBlock =>
      have hfD := domain_mem_of_required hf hLab hTim
      refine ⟨.fieldMissing f, ?_, by simp [PyErr.namesField]⟩
      have hA := assert_error_first_missing rec f ["dpid", "controller_id"]
        hfD hmiss
        (fun g hg hne =>
          hpres g (List.mem_cons_of_mem _ (List.mem_cons_of_mem _ hg)) hne)
      simp only [fromJson, ControlChannelBlock_from_json, hE, ok_bind, hA,
        error_bind]
  | controlChannelUnblock =>
      have hfD := domain_mem_of_required hf hLab hTim
      refine ⟨.fieldMissing f, ?_, by simp [PyErr.namesField]⟩
      have hA := assert_error_first_missing rec f ["dpid", "controller_id"]
        hfD hmiss
        (fun g hg hne =>
          hpres g (List.mem_cons_of_mem _ (List.mem_cons_of_mem _ hg)) hne)
      simp only [fromJson, ControlChannelUnblock_from_json, hE, ok_bind, hA,
        error_bind]
  | dataplaneDrop =>
      have hfD := domain_mem_of_required hf hLab hTim
      refine ⟨.fieldMissing f, ?_, by simp [PyErr.namesField]⟩
      have hA := assert_error_first_missing rec f ["fingerprint"] hfD hmiss
        (fun g hg hne =>
          hpres g (List.mem_cons_of_mem _ (List.mem_cons_of_mem _ hg)) hne)
      simp only [fromJson, DataplaneDrop_from_json, hE, ok_bind, hA, error_bind]
  | dataplanePermit =>
      have hfD := domain_mem_of_required hf hLab hTim
      refine ⟨.fieldMissing f, ?_, by simp [PyErr.namesField]⟩
      have hA := assert_error_first_missing rec f ["fingerprint"] hfD hmiss
        (fun g hg hne =>
          hpres g (List.mem_cons_of_mem _ (List.mem_cons_of_mem _ hg)) hne)
      simp only [fromJson, DataplanePermit_from_json, hE, ok_bind, hA,
        error_bind]
  | controlMessageReceive =>
      have hfD := domain_mem_of_required hf hLab hTim
      refine ⟨.fieldMissing f, ?_, by simp [PyErr.namesField]⟩
      have hA := assert_error_first_missing rec f
        ["dpid", "controller_id", "fingerprint"] hfD hmiss
        (fun g hg hne =>
          hpres g (List.mem_cons_of_mem _ (List.mem_cons_of_mem _ hg)) hne)
      simp only [fromJson, ControlMessageReceive_from_json, hE, ok_bind, hA,
        error_bind]
  | controllerStateChange =>
      have hfD := domain_mem_of_required hf hLab hTim
      refine ⟨.fieldMissing f, ?_, by simp [PyErr.namesField]⟩
      have hA := assert_error_first_missing rec f
        ["controller_id", "fingerprint", "name", "value"] hfD hmiss
        (fun g hg hne =>
          hpres g (List.mem_cons_of_mem _ (List.mem_cons_of_mem _ hg)) hne)
      simp only [fromJson, ControllerStateChange_from_json, hE, ok_bind, hA,
        error_bind]

/-- A `LinkFailure` record with everything except `end_port_no`. -/
def c5LinkRecord : Record :=
  [("label", .jstr "e1"), ("time", .jarr [.jnum 0, .jnum 0]),
   ("start_dpid", .jnum 8), ("start_port_no", .jnum 3), ("end_dpid", .jnum 15)]

/-- A `ControllerFailure` record with everything except `controller_id`. -/
def c5CtrlRecord : Record :=
  [("label", .jstr "e1"), ("time", .jarr [.jnum 0, .jnum 0])]

/-- Witness for C5 at the claim's two named instances. -/
theorem claim_c5_witness :
    ("end_port_no" ∈ requiredFields .linkFailure) ∧
    lookupField c5LinkRecord "end_port_no" = none ∧
    (∃ err, fromJson .linkFailure c5LinkRecord initialLabelState = .error err ∧
        err.namesField "end_port_no" = true) ∧
    (∃ err, fromJson .controllerFailure c5CtrlRecord initialLabelState =
        .error err ∧ err.namesField "controller_id" = true) := by
  refine ⟨by decide, by decide, ?_, ?_⟩
  · exact claim_c5_missing_field .linkFailure "end_port_no" c5LinkRecord
      initialLabelState (by decide) (by decide) (by decide)
      (fun _ _ => ⟨.jnum 0, .jnum 0, [], by decide⟩)
  · exact claim_c5_missing_field .controllerFailure "controller_id" c5CtrlRecord
      initialLabelState (by decide) (by decide) (by decide)
      (fun _ _ => ⟨.jnum 0, .jnum 0, [], by decide⟩)

/-- A successful dict access means the key was present with that value. -/
theorem getField_ok_inv {rec : Record} {f : String} {v : JsonVal}
    (h : getField rec f = .ok v) : lookupField rec f = some v := by
  unfold getField at h
  cases hc : lookupField rec f with
  | none => rw [hc] at h; exact absurd h (by simp)
  | some w => rw [hc] at h; simp at h; simp_all

/-- Inverting a successful `extract_label_time`: the label value and the
two time components come verbatim from the record. -/
theorem extract_ok_inv (rec : Record) (lv : JsonVal) (t : SyncT)
    (h : extract_label_time rec = .ok (lv, t)) :
    lookupField rec "label" = some lv ∧
    ∃ t0 t1 rest, lookupField rec "time" = some (.jarr (t0 :: t1 :: rest)) ∧
      t = ⟨t0, t1⟩ := by
  obtain ⟨u, hA, h⟩ := exceptBind_ok h
  obtain ⟨lv0, hL, h⟩ := exceptBind_ok h
  obtain ⟨tv, hT, h⟩ := exceptBind_ok h
  cases tv with
  | jarr l =>
      cases l with
      | nil => simp [extract_label_time] at h
      | cons t0 l2 =>
          cases l2 with
          | nil => simp [extract_label_time] at h
          | cons t1 rest =>
              simp at h
              obtain ⟨h1, h2⟩ := h
              refine ⟨?_, t0, t1, rest, getField_ok_inv hT, h2.symm⟩
              rw [getField_ok_inv hL, h1]
  | jnum n => simp at h
  | jstr s2 => simp at h
  | jbool b2 => simp at h
  | jnull => simp at h
  | jobj o => simp at h

/-- Inverting a successful `init_base`: the label attribute is exactly the
record's (string) label value, the time is the one handed in, and
`dependent_labels` is empty. -/
theorem init_base_ok_inv {lv : JsonVal} {t : SyncT} {s : LabelState}
    {b : EventBase} {s' : LabelState}
    (h : init_base lv t s = .ok (b, s')) :
    ∃ ls, lv = .jstr ls ∧ b = ⟨ls, t, []⟩ := by
  cases lv with
  | jstr ls =>
      obtain ⟨⟨label, s2⟩, hEI, h⟩ := exceptBind_ok h
      cases hs : labelSuffixNat ls with
      | none => simp [event_init_label, hs] at hEI
      | some n =>
          simp [event_init_label, hs] at hEI
          obtain ⟨h1, _⟩ := hEI
          simp [pure_ok] at h
          obtain ⟨h2, _⟩ := h
          exact ⟨ls, rfl, by rw [← h2, ← h1]⟩
  | jnum n => simp [init_base] at h
  | jbool b2 => simp [init_base] at h
  | jnull => simp [init_base] at h
  | jarr l => simp [init_base] at h
  | jobj o => simp [init_base] at h

/-- The shared conclusion of the C4 analysis, from the two inversions. -/
theorem c4_conclude {rec : Record} {lv : JsonVal} {t : SyncT}
    {s : LabelState} {base : EventBase} {s2 : LabelState}
    (hE : extract_label_time rec = .ok (lv, t))
    (hI : init_base lv t s = .ok (base, s2)) :
    lookupField rec "label" = some (.jstr base.label) ∧
    (∃ t0 t1 rest, lookupField rec "time" = some (.jarr (t0 :: t1 :: rest)) ∧
        base.time = ⟨t0, t1⟩) ∧
    base.dependent_labels = [] := by
  obtain ⟨hl, t0, t1, rest, hT, hTt⟩ := extract_ok_inv _ _ _ hE
  obtain ⟨ls, hlv, hb⟩ := init_base_ok_inv hI
  subst hlv hb hTt
  exact ⟨hl, ⟨t0, t1, rest, hT, rfl⟩, rfl⟩

/-- Claim C4 (amended): every successful decode reattaches exactly the
`label` and `time` stored in the record, but `dependent_labels` is always
reset to `[]` — no decoder reads the record's `dependent_labels`. -/
theorem claim_c4_amended (cls : EClass) (rec : Record) (s : LabelState)
    (e : Event) (s' : LabelState)
    (h : fromJson cls rec s = .ok (e, s')) :
    lookupField rec "label" = some (.jstr e.base.label) ∧
    (∃ t0 t1 rest, lookupField rec "time" = some (.jarr (t0 :: t1 :: rest)) ∧
        e.base.time = ⟨t0, t1⟩) ∧
    e.base.dependent_labels = [] := by
  cases cls with
  | switchFailure =>
      obtain ⟨⟨lv, t⟩, hE, h⟩ := exceptBind_ok h
      obtain ⟨_, _, h⟩ := exceptBind_ok h
      obtain ⟨_, _, h⟩ := exceptBind_ok h
      obtain ⟨_, _, h⟩ := exceptBind_ok h
      obtain ⟨⟨base, s2⟩, hI, h⟩ := exceptBind_ok h
      simp only [pure_ok, Except.ok.injEq, Prod.mk.injEq] at h
      obtain ⟨he, hs2⟩ := h
      subst he
      simpa [Event.base] using c4_conclude hE hI
  | switchRecovery =>
      obtain ⟨⟨lv, t⟩, hE, h⟩ := exceptBind_ok h
      obtain ⟨_, _, h⟩ := exceptBind_ok h
      obtain ⟨_, _, h⟩ := exceptBind_ok h
      obtain ⟨_, _, h⟩ := exceptBind_ok h
      obtain ⟨⟨base, s2⟩, hI, h⟩ := exceptBind_ok h
      simp only [pure_ok, Except.ok.injEq, Prod.mk.injEq] at h
      obtain ⟨he, hs2⟩ := h
      subst he
      simpa [Event.base] using c4_conclude hE hI
  | linkFailure =>
      obtain ⟨⟨lv, t⟩, hE, h⟩ := exceptBind_ok h
      obtain ⟨_, _, h⟩ := exceptBind_ok h
      obtain ⟨_, _, h⟩ := exceptBind_ok h
      obtain ⟨_, _, h⟩ := exceptBind_ok h
      obtain ⟨_, _, h⟩ := exceptBind_ok h
      obtain ⟨_, _, h⟩ := exceptBind_ok h
      obtain ⟨_, _, h⟩ := exceptBind_ok h
      obtain ⟨_, _, h⟩ := exceptBind_ok h
      obtain ⟨_, _, h⟩ := exceptBind_ok h
      obtain ⟨_, _, h⟩ := exceptBind_ok h
      obtain ⟨⟨base, s2⟩, hI, h⟩ := exceptBind_ok h
      simp only [pure_ok, Except.ok.injEq, Prod.mk.injEq] at h
      obtain ⟨he, hs2⟩ := h
      subst he
      simpa [Event.base] using c4_conclude hE hI
  | linkRecovery =>
      obtain ⟨⟨lv, t⟩, hE, h⟩ := exceptBind_ok h
      obtain ⟨_, _, h⟩ := exceptBind_ok h
      obtain ⟨_, _, h⟩ := exceptBind_ok h
      obtain ⟨_, _, h⟩ := exceptBind_ok h
      obtain ⟨_, _, h⟩ := exceptBind_ok h
      obtain ⟨_, _, h⟩ := exceptBind_ok h
      obtain ⟨_, _, h⟩ := exceptBind_ok h
      obtain ⟨_, _, h⟩ := exceptBind_ok h
      obtain ⟨_, _, h⟩ := exceptBind_ok h
      obtain ⟨_, _, h⟩ := exceptBind_ok h
      obtain ⟨⟨base, s2⟩, hI, h⟩ := exceptBind_ok h
      simp only [pure_ok, Except.ok.injEq, Prod.mk.injEq] at h
      obtain ⟨he, hs2⟩ := h
      subst he
      simpa [Event.base] using c4_conclude hE hI
  | controllerFailure =>
      obtain ⟨⟨lv, t⟩, hE, h⟩ := exceptBind_ok h
      obtain ⟨_, _, h⟩ := exceptBind_ok h
      obtain ⟨_, _, h⟩ := exceptBind_ok h
      obtain ⟨_, _, h⟩ := exceptBind_ok h
      obtain ⟨⟨base, s2⟩, hI, h⟩ := exceptBind_ok h
      simp only [pure_ok, Except.ok.injEq, Prod.mk.injEq] at h
      obtain ⟨he, hs2⟩ := h
      subst he
      simpa [Event.base] using c4_conclude hE hI
  | controllerRecovery =>
      obtain ⟨⟨lv, t⟩, hE, h⟩ := exceptBind_ok h
      obtain ⟨_, _, h⟩ := exceptBind_ok h
      obtain ⟨_, _, h⟩ := exceptBind_ok h
      obtain ⟨_, _, h⟩ := exceptBind_ok h
      obtain ⟨⟨base, s2⟩, hI, h⟩ := exceptBind_ok h
      simp only [pure_ok, Except.ok.injEq, Prod.mk.injEq] at h
      obtain ⟨he, hs2⟩ := h
      subst he
      simpa [Event.base] using c4_conclude hE hI
  | hostMigration =>
      obtain ⟨⟨lv, t⟩, hE, h⟩ := exceptBind_ok h
      obtain ⟨_, _, h⟩ := exceptBind_ok h
      obtain ⟨_, _, h⟩ := exceptBind_ok h
      obtain ⟨_, _, h⟩ := exceptBind_ok h
      obtain ⟨_, _, h⟩ := exceptBind_ok h
      obtain ⟨_, _, h⟩ := exceptBind_ok h
      obtain ⟨_, _, h⟩ := exceptBind_ok h
      obtain ⟨_, _, h⟩ := exceptBind_ok h
      obtain ⟨_, _, h⟩ := exceptBind_ok h
      obtain ⟨_, _, h⟩ := exceptBind_ok h
      obtain ⟨⟨base, s2⟩, hI, h⟩ := exceptBind_ok h
      simp only [pure_ok, Except.ok.injEq, Prod.mk.injEq] at h
      obtain ⟨he, hs2⟩ := h
      subst he
      simpa [Event.base] using c4_conclude hE hI
  | policyChange =>
      obtain ⟨⟨lv, t⟩, hE, h⟩ := exceptBind_ok h
      obtain ⟨_, _, h⟩ := exceptBind_ok h
      obtain ⟨_, _, h⟩ := exceptBind_ok h
      obtain ⟨⟨base, s2⟩, hI, h⟩ := exceptBind_ok h
      simp only [pure_ok, Except.ok.injEq, Prod.mk.injEq] at h
      obtain ⟨he, hs2⟩ := h
      subst he
      simpa [Event.base] using c4_conclude hE hI
  | trafficInjection =>
      obtain ⟨⟨lv, t⟩, hE, h⟩ := exceptBind_ok h
      obtain ⟨⟨base, s2⟩, hI, h⟩ := exceptBind_ok h
      simp only [pure_ok, Except.ok.injEq, Prod.mk.injEq] at h
      obtain ⟨he, hs2⟩ := h
      subst he
      simpa [Event.base] using c4_conclude hE hI
  | waitTime =>
      obtain ⟨⟨lv, t⟩, hE, h⟩ := exceptBind_ok h
      obtain ⟨_, _, h⟩ := exceptBind_ok h
      obtain ⟨_, _, h⟩ := exceptBind_ok h
      obtain ⟨⟨base, s2⟩, hI, h⟩ := exceptBind_ok h
      simp only [pure_ok, Except.ok.injEq, Prod.mk.injEq] at h
      obtain ⟨he, hs2⟩ := h
      subst he
      simpa [Event.base] using c4_conclude hE hI
  | checkInvariants =>
      obtain ⟨⟨lv, t⟩, hE, h⟩ := exceptBind_ok h
      rcases hinv : lookupField rec "invariant_check" with _ | v
      · rw [hinv] at h
        obtain ⟨_, _, h⟩ := exceptBind_ok h
        obtain ⟨⟨base, s2⟩, hI, h⟩ := exceptBind_ok h
        simp only [pure_ok, Except.ok.injEq, Prod.mk.injEq] at h
        obtain ⟨he, hs2⟩ := h
        subst he
        simpa [Event.base] using c4_conclude hE hI
      · cases v with
        | jstr armored =>
            simp only [hinv] at h
            cases hb : b64decode armored with
            | none => simp only [hb] at h; simp [error_bind] at h
            | some bs =>
                simp only [hb] at h
                cases hm : marshal_loads bs with
                | none => simp only [hm] at h; simp [error_bind] at h
                | some c =>
                    simp only [hm] at h
                    obtain ⟨_, _, h⟩ := exceptBind_ok h
                    obtain ⟨⟨base, s2⟩, hI, h⟩ := exceptBind_ok h
                    simp only [pure_ok, Except.ok.injEq, Prod.mk.injEq] at h
                    obtain ⟨he, hs2⟩ := h
                    subst he
                    simpa [Event.base] using c4_conclude hE hI
        | jnum n => simp [hinv, error_bind] at h
        | jbool b2 => simp [hinv, error_bind] at h
        | jnull => simp [hinv, error_bind] at h
        | jarr l => simp [hinv, error_bind] at h
        | jobj o => simp [hinv, error_bind] at h
  | controlChannelBlock =>
      obtain ⟨⟨lv, t⟩, hE, h⟩ := exceptBind_ok h
      obtain ⟨_, _, h⟩ := exceptBind_ok h
      obtain ⟨_, _, h⟩ := exceptBind_ok h
      obtain ⟨_, _, h⟩ := exceptBind_ok h
      obtain ⟨_, _, h⟩ := exceptBind_ok h
      obtain ⟨⟨base, s2⟩, hI, h⟩ := exceptBind_ok h
      simp only [pure_ok, Except.ok.injEq, Prod.mk.injEq] at h
      obtain ⟨he, hs2⟩ := h
      subst he
      simpa [Event.base] using c4_conclude hE hI
  | controlChannelUnblock =>
      obtain ⟨⟨lv, t⟩, hE, h⟩ := exceptBind_ok h
      obtain ⟨_, _, h⟩ := exceptBind_ok h
      obtain ⟨_, _, h⟩ := exceptBind_ok h
      obtain ⟨_, _, h⟩ := exceptBind_ok h
      obtain ⟨_, _, h⟩ := exceptBind_ok h
      obtain ⟨⟨base, s2⟩, hI, h⟩ := exceptBind_ok h
      simp only [pure_ok, Except.ok.injEq, Prod.mk.injEq] at h
      obtain ⟨he, hs2⟩ := h
      subst he
      simpa [Event.base] using c4_conclude hE hI
  | dataplaneDrop =>
      obtain ⟨⟨lv, t⟩, hE, h⟩ := exceptBind_ok h
      obtain ⟨_, _, h⟩ := exceptBind_ok h
      obtain ⟨_, _, h⟩ := exceptBind_ok h
      obtain ⟨⟨base, s2⟩, hI, h⟩ := exceptBind_ok h
      obtain ⟨_, _, h⟩ := exceptBind_ok h
      simp only [pure_ok, Except.ok.injEq, Prod.mk.injEq] at h
      obtain ⟨he, hs2⟩ := h
      subst he
      simpa [Event.base] using c4_conclude hE hI
  | dataplanePermit =>
      obtain ⟨⟨lv, t⟩, hE, h⟩ := exceptBind_ok h
      obtain ⟨_, _, h⟩ := exceptBind_ok h
      obtain ⟨_, _, h⟩ := exceptBind_ok h
      obtain ⟨⟨base, s2⟩, hI, h⟩ := exceptBind_ok h
      obtain ⟨_, _, h⟩ := exceptBind_ok h
      simp only [pure_ok, Except.ok.injEq, Prod.mk.injEq] at h
      obtain ⟨he, hs2⟩ := h
      subst he
      simpa [Event.base] using c4_conclude hE hI
  | controlMessageReceive =>
      obtain ⟨⟨lv, t⟩, hE, h⟩ := exceptBind_ok h
      obtain ⟨_, _, h⟩ := exceptBind_ok h
      obtain ⟨_, _, h⟩ := exceptBind_ok h
      obtain ⟨_, _, h⟩ := exceptBind_ok h
      obtain ⟨_, _, h⟩ := exceptBind_ok h
      obtain ⟨_, _, h⟩ := exceptBind_ok h
      obtain ⟨⟨base, s2⟩, hI, h⟩ := exceptBind_ok h
      obtain ⟨_, _, h⟩ := exceptBind_ok h
      simp only [pure_ok, Except.ok.injEq, Prod.mk.injEq] at h
      obtain ⟨he, hs2⟩ := h
      subst he
      simpa [Event.base] using c4_conclude hE hI
  | controllerStateChange =>
      obtain ⟨⟨lv, t⟩, hE, h⟩ := exceptBind_ok h
      obtain ⟨_, _, h⟩ := exceptBind_ok h
      obtain ⟨_, _, h⟩ := exceptBind_ok h
      obtain ⟨_, _, h⟩ := exceptBind_ok h
      obtain ⟨_, _, h⟩ := exceptBind_ok h
      obtain ⟨_, _, h⟩ := exceptBind_ok h
      obtain ⟨_, _, h⟩ := exceptBind_ok h
      obtain ⟨⟨base, s2⟩, hI, h⟩ := exceptBind_ok h
      obtain ⟨_, _, h⟩ := exceptBind_ok h
      simp only [pure_ok, Except.ok.injEq, Prod.mk.injEq] at h
      obtain ⟨he, hs2⟩ := h
      subst he
      simpa [Event.base] using c4_conclude hE hI

/-- Witness for the amended C4 at the concrete record `c4Record`. -/
theorem claim_c4_amended_witness :
    ∃ e s',
      fromJson .switchFailure c4Record initialLabelState = .ok (e, s') ∧
      lookupField c4Record "label" = some (.jstr e.base.label) ∧
      e.base.dependent_labels = [] := by
  refine ⟨.switchFailure ⟨"e1", ⟨.jnum 0, .jnum 0⟩, []⟩ 8, ⟨1, {1}⟩,
    by decide, ?_, ?_⟩
  · exact (claim_c4_amended .switchFailure c4Record initialLabelState
      (.switchFailure ⟨"e1", ⟨.jnum 0, .jnum 0⟩, []⟩ 8) ⟨1, {1}⟩ (by decide)).1
  · exact (claim_c4_amended .switchFailure c4Record initialLabelState
      (.switchFailure ⟨"e1", ⟨.jnum 0, .jnum 0⟩, []⟩ 8) ⟨1, {1}⟩ (by decide)).2.2

/-- The `charDigit?` inverts `Nat.digitChar` on decimal digits. -/
theorem charDigit_digitChar (m : Nat) (hm : m < 10) :
    charDigit? (Nat.digitChar m) = some m := by
  interval_cases m <;> decide

/-- The `Nat.toDigitsCore` never shrinks a non-empty accumulator to nothing. -/
theorem toDigitsCore_ne_nil :
    ∀ (fuel n : Nat) (ds : List Char), ds ≠ [] →
      Nat.toDigitsCore 10 fuel n ds ≠ [] := by
  intro fuel
  induction fuel with
  | zero => intro n ds h; exact h
  | succ f ih =>
      intro n ds h
      simp only [Nat.toDigitsCore]
      by_cases h10 : n / 10 = 0
      · simp [h10]
      · simp only [h10, if_false]
        exact ih _ _ (by simp)

/-- Parsing the decimal digits `Nat.toDigitsCore` emits recovers the
number: the emitted digits shift the accumulator by a power of ten and add
the value back. -/
theorem parse_toDigitsCore :
    ∀ (fuel n : Nat) (ds : List Char) (acc : Nat), n < fuel →
      ∃ E, parseDigitsAux (Nat.toDigitsCore 10 fuel n ds) acc =
        parseDigitsAux ds (acc * E + n) := by
  intro fuel
  induction fuel with
  | zero => intro n ds acc h; exact absurd h (Nat.not_lt_zero n)
  | succ f ih =>
      intro n ds acc hn
      simp only [Nat.toDigitsCore]
      by_cases h10 : n / 10 = 0
      · refine ⟨10, ?_⟩
        have hlt : n < 10 := by omega
        have hd := charDigit_digitChar n hlt
        simp [h10, parseDigitsAux, Nat.mod_eq_of_lt hlt, hd]
      · obtain ⟨E', hE⟩ :=
          ih (n / 10) (Nat.digitChar (n % 10) :: ds) acc (by omega)
        refine ⟨E' * 10, ?_⟩
        simp only [h10, if_false]
        rw [hE]
        have hd := charDigit_digitChar (n % 10) (by omega)
        simp only [parseDigitsAux, hd]
        have h2 : (acc * E' + n / 10) * 10 + n % 10 =
            acc * (E' * 10) + (n / 10 * 10 + n % 10) := by ring
        rw [h2, Nat.div_add_mod']

/-- Parsing the decimal representation of a natural number gives it back. -/
theorem parse_repr (n : Nat) : parseDigits ((toString n).data) = some n := by
  have hne : Nat.toDigits 10 n ≠ [] := by
    simp only [Nat.toDigits, Nat.toDigitsCore]
    by_cases h10 : n / 10 = 0
    · simp [h10]
    · simp only [h10, if_false]
      exact toDigitsCore_ne_nil _ _ _ (by simp)
  obtain ⟨E, hE⟩ := parse_toDigitsCore (n + 1) n [] 0 (Nat.lt_succ_self n)
  have hE' : parseDigitsAux (Nat.toDigits 10 n) 0 =
      parseDigitsAux [] (0 * E + n) := hE
  have hdata : (toString n).data = Nat.toDigits 10 n := rfl
  rw [hdata]
  cases hcs : Nat.toDigits 10 n with
  | nil => exact absurd hcs hne
  | cons c cs =>
      rw [hcs] at hE'
      simp only [parseDigits]
      rw [hE']
      simp [parseDigitsAux]

/-- The numeric suffix of an auto-generated label `prefix + str(id)` parses
back to `id`. -/
theorem labelSuffix_auto (c : Char) (n : Nat) :
    labelSuffixNat (String.singleton c ++ toString n) = some n := by
  unfold labelSuffixNat
  rw [String.data_append, String.data_singleton]
  simpa using parse_repr n

/-- The collision-skipping loop never returns a claimed id when given the
fuel `Event.__init__` implicitly has (each skip consumes a distinct claimed
id at or above the counter). -/
theorem genLoop_not_mem :
    ∀ (fuel i : Nat) (cl : Finset Nat),
      (cl.filter (fun x => i ≤ x)).card < fuel → genLoop fuel i cl ∉ cl := by
  intro fuel
  induction fuel with
  | zero => intro i cl h; exact absurd h (Nat.not_lt_zero _)
  | succ f ih =>
      intro i cl h
      by_cases hi : i ∈ cl
      · simp only [genLoop, hi, if_true]
        apply ih
        have hmem : i ∈ cl.filter (fun x => i ≤ x) :=
          Finset.mem_filter.mpr ⟨hi, le_refl i⟩
        have hsub : cl.filter (fun x => i + 1 ≤ x) =
            (cl.filter (fun x => i ≤ x)).erase i := by
          ext x
          simp only [Finset.mem_filter, Finset.mem_erase]
          constructor
          · rintro ⟨hx, hle⟩; exact ⟨by omega, hx, by omega⟩
          · rintro ⟨hne, hx, hle⟩
            refine ⟨hx, ?_⟩
            rcases Nat.lt_or_ge i x with hgt | hge
            · omega
            · omega
        have hcard := Finset.card_erase_of_mem hmem
        have hpos : 0 < (cl.filter (fun x => i ≤ x)).card :=
          Finset.card_pos.mpr ⟨i, hmem⟩
        rw [hsub, hcard]
        omega
      · simp [genLoop, hi]

/-- Inverting a successful `event_init_label`: the new label's suffix is
recorded as claimed, and an auto-generated suffix was not claimed before. -/
theorem event_init_label_ok_inv {pre : Char} {label? : Option String}
    {s : LabelState} {l : String} {s1 : LabelState}
    (h : event_init_label pre label? s = .ok (l, s1)) :
    ∃ n, labelSuffixNat l = some n ∧ s1.claimed = insert n s.claimed ∧
      (label? = none → n ∉ s.claimed) := by
  cases label? with
  | none =>
      have hgen : genLoop (s.claimed.card + 1) s.counter s.claimed ∉ s.claimed :=
        genLoop_not_mem (s.claimed.card + 1) s.counter s.claimed
          (by
            have hle := Finset.card_filter_le s.claimed (fun x => s.counter ≤ x)
            omega)
      have hsuf := labelSuffix_auto pre
        (genLoop (s.claimed.card + 1) s.counter s.claimed)
      simp only [event_init_label, hsuf, Except.ok.injEq, Prod.mk.injEq] at h
      obtain ⟨hl, hs1⟩ := h
      refine ⟨genLoop (s.claimed.card + 1) s.counter s.claimed, ?_, ?_,
        fun _ => hgen⟩
      · rw [← hl]; exact hsuf
      · rw [← hs1]
  | some l0 =>
      cases hs : labelSuffixNat l0 with
      | none => simp [event_init_label, hs] at h
      | some n =>
          simp only [event_init_label, hs, Except.ok.injEq, Prod.mk.injEq] at h
          obtain ⟨hl, hs1⟩ := h
          refine ⟨n, ?_, ?_, fun hc => Option.noConfusion hc⟩
          · rw [← hl]; exact hs
          · rw [← hs1]

/-- The running invariant of label creation: every created label has a
parsed suffix that is claimed afterwards; an auto-generated label's suffix
was unclaimed when the run started and differs from every earlier label's
suffix in the run. -/
theorem createLabels_spec :
    ∀ (reqs : List (Char × Option String)) (s : LabelState)
      (ls : List String) (s' : LabelState),
      createLabels reqs s = .ok (ls, s') →
      ls.length = reqs.length ∧
      s.claimed ⊆ s'.claimed ∧
      (∀ j (hj : j < ls.length) (hj2 : j < reqs.length),
        ∃ n, labelSuffixNat (ls.get ⟨j, hj⟩) = some n ∧ n ∈ s'.claimed ∧
          ((reqs.get ⟨j, hj2⟩).2 = none →
            n ∉ s.claimed ∧
            ∀ i (hi2 : i < ls.length), i < j → ∀ m,
              labelSuffixNat (ls.get ⟨i, hi2⟩) = some m → n ≠ m)) := by
  intro reqs
  induction reqs with
  | nil =>
      intro s ls s' h
      simp only [createLabels, Except.ok.injEq, Prod.mk.injEq] at h
      obtain ⟨hls, hs⟩ := h
      subst hls hs
      exact ⟨rfl, Finset.Subset.refl _, fun j hj _ => absurd hj (by simp)⟩
  | cons r rs ih =>
      intro s ls s' h
      obtain ⟨⟨l, s1⟩, hStep, h⟩ := exceptBind_ok h
      obtain ⟨⟨ls2, s2⟩, hRest, h⟩ := exceptBind_ok h
      simp only [pure_ok, Except.ok.injEq, Prod.mk.injEq] at h
      obtain ⟨hls, hs2⟩ := h
      subst hls hs2
      obtain ⟨hlen, hsub, hspec⟩ := ih s1 ls2 s2 hRest
      obtain ⟨n0, hn0suf, hn0claimed, hn0auto⟩ := event_init_label_ok_inv hStep
      have hn0mem : n0 ∈ s2.claimed :=
        hsub (by rw [hn0claimed]; exact Finset.mem_insert_self _ _)
      refine ⟨by simp [hlen], ?_, ?_⟩
      · intro x hx
        exact hsub (by rw [hn0claimed]; exact Finset.mem_insert_of_mem hx)
      · intro j hj hj2
        cases j with
        | zero =>
            refine ⟨n0, by simpa using hn0suf, hn0mem, ?_⟩
            intro hauto
            refine ⟨hn0auto hauto, ?_⟩
            intro i hi2 hi; exact absurd hi (Nat.not_lt_zero i)
        | succ j' =>
            have hj' : j' < ls2.length := by simpa using hj
            have hj2' : j' < rs.length := by simpa using hj2
            obtain ⟨n, hnsuf, hnmem, hnauto⟩ := hspec j' hj' hj2'
            refine ⟨n, by simpa using hnsuf, hnmem, ?_⟩
            intro hauto
            obtain ⟨hnotin1, hforall⟩ := hnauto hauto
            constructor
            · intro hcon
              exact hnotin1
                (by rw [hn0claimed]; exact Finset.mem_insert_of_mem hcon)
            · intro i hi2 hi m hm
              cases i with
              | zero =>
                  have hm0 : m = n0 := by
                    have hml : labelSuffixNat l = some m := by simpa using hm
                    rw [hn0suf] at hml
                    exact (Option.some.inj hml).symm
                  subst hm0
                  intro hcon
                  subst hcon
                  exact hnotin1
                    (by rw [hn0claimed]; exact Finset.mem_insert_self _ _)
              | succ i' =>
                  have hi2' : i' < ls2.length := by simpa using hi2
                  exact hforall i' hi2' (by omega) m (by simpa using hm)

/-- Claim C3 (amended): within one process run, every auto-generated label
differs — as a string, and already in its numeric suffix — from every label
created before it (auto-generated or explicitly supplied); once a suffix is
recorded as claimed, no later auto-generated label reuses it. Uniqueness
can fail only between explicitly supplied labels (see the
counterexample). -/
theorem claim_c3_amended (reqs : List (Char × Option String))
    (ls : List String) (s' : LabelState)
    (h : createLabels reqs initialLabelState = .ok (ls, s'))
    (i j : Nat) (hij : i < j) (hj : j < ls.length) (hj2 : j < reqs.length)
    (hauto : (reqs.get ⟨j, hj2⟩).2 = none) :
    ls.get ⟨i, Nat.lt_trans hij hj⟩ ≠ ls.get ⟨j, hj⟩ ∧
    labelSuffixNat (ls.get ⟨i, Nat.lt_trans hij hj⟩) ≠
      labelSuffixNat (ls.get ⟨j, hj⟩) := by
  obtain ⟨hlen, hsub, hspec⟩ := createLabels_spec reqs _ ls s' h
  obtain ⟨n, hnsuf, hnmem, hnauto⟩ := hspec j hj hj2
  obtain ⟨hnotin, hforall⟩ := hnauto hauto
  have hi : i < ls.length := Nat.lt_trans hij hj
  have hi2 : i < reqs.length := by omega
  obtain ⟨m, hmsuf, hmmem, hm2⟩ := hspec i hi hi2
  have hne : n ≠ m := hforall i hi hij m hmsuf
  constructor
  · intro hcon
    rw [hcon, hnsuf] at hmsuf
    exact hne (Option.some.inj hmsuf)
  · intro hcon
    rw [hmsuf, hnsuf] at hcon
    exact hne (Option.some.inj hcon).symm

/-- Witness for the amended C3: an explicit label "e5" claims suffix 5, so
the next auto-generated label is "i1" with a fresh suffix, distinct from
"e5". -/
theorem claim_c3_amended_witness :
    createLabels [('e', some "e5"), ('i', none)] initialLabelState =
      .ok (["e5", "i1"], ⟨2, {1, 5}⟩) ∧
    "e5" ≠ "i1" := by
  refine ⟨by decide, ?_⟩
  exact (claim_c3_amended [('e', some "e5"), ('i', none)] ["e5", "i1"]
    ⟨2, {1, 5}⟩ (by decide) 0 1 (by decide) (by decide) (by decide)
    (by decide)).1
